import Mathlib

/-!
# Verification of `github.com/unkiwii/assert`

A shallow embedding of `assert.go` (the functions `FailOnError`, `Nil`, `Equals`, `IsError`,
`AsError` and the private helper `isNil`) together with the fragment of the Go runtime and
standard library these functions call: `reflect.ValueOf`, `Value.Kind`, `Value.IsNil`,
`reflect.DeepEqual`, `reflect.Indirect`, the `==` operator on interface values, `errors.Is`
and `errors.As` (Go 1.20 and later, where both walk a tree of wrapped errors).

Modelling decisions, all stated where they are made:
* a Go value is a finite tree; references (pointers, slices, maps, channels, functions) carry
  an address that stands for their identity;
* an error is its dynamic value together with the results of its methods, which are taken to
  be pure and total; what an error wraps is part of the tree;
* a reporter `t` is observed through the sequence of calls the function makes on it;
* a panic is an outcome of its own, carrying the panic message.
-/

namespace Assert

/-! ## Go values -/

/-- The enumeration `reflect.Kind`. -/
inductive Kind where
  | Invalid | Bool | Int | Int8 | Int16 | Int32 | Int64
  | Uint | Uint8 | Uint16 | Uint32 | Uint64 | Uintptr
  | Float32 | Float64 | Complex64 | Complex128
  | Array | Chan | Func | Interface | Map | Pointer | Slice | String | Struct | UnsafePointer
  deriving DecidableEq, Repr

/-- A type descriptor, as far as the library looks at it: the name printed by `%T` and by
`Type.String`, whether `==` is defined on the type (`Type.Comparable`) and the names of the
methods in its method set. Two descriptors are the same type when they are equal. -/
structure GoType where
  name : String
  comparable : Bool
  methods : List String
  deriving DecidableEq, Repr

/-- The five signed integer kinds. -/
inductive IntKind where
  | Int | Int8 | Int16 | Int32 | Int64
  deriving DecidableEq, Repr

/-- The six unsigned integer kinds. -/
inductive UintKind where
  | Uint | Uint8 | Uint16 | Uint32 | Uint64 | Uintptr
  deriving DecidableEq, Repr

mutual
/-- A Go value with its type. A floating-point number is the bit pattern of its `float64`
value (what `Value.Float` returns). `nilIface` and `iface` are variables, fields or elements
of interface type: the type is the static interface type, `dyn` the value stored in it. -/
inductive Val where
  | bool (t : GoType) (b : Bool)
  | int (t : GoType) (k : IntKind) (n : Int)
  | uint (t : GoType) (k : UintKind) (n : Nat)
  | float (t : GoType) (wide : Bool) (bits : Nat)
  | complex (t : GoType) (wide : Bool) (re im : Nat)
  | str (t : GoType) (s : String)
  | uptr (t : GoType) (addr : Nat)
  | chan (t : GoType) (ref : Option Nat)
  | func (t : GoType) (code : Option Nat)
  | nilPtr (t : GoType)
  | ptr (t : GoType) (addr : Nat) (elem : Val)
  | nilSlice (t : GoType)
  | slice (t : GoType) (base : Nat) (elems : Vals)
  | nilMap (t : GoType)
  | map (t : GoType) (id : Nat) (entries : Entries)
  | array (t : GoType) (elems : Vals)
  | struct (t : GoType) (fields : Vals)
  | nilIface (t : GoType)
  | iface (t : GoType) (dyn : Val)
/-- The elements of an array or slice, or the fields of a struct, in order. -/
inductive Vals where
  | nil
  | cons (v : Val) (vs : Vals)
/-- The key and value pairs of a map. -/
inductive Entries where
  | nil
  | cons (k v : Val) (es : Entries)
end

/-- A value of type `interface{}` (`any`): `none` is the untyped nil, `some v` holds the
dynamic value `v`. -/
abbrev GoAny := Option Val

/-- The type of a value: `Value.Type`. -/
def Val.typeOf : Val → GoType
  | .bool t _ => t
  | .int t _ _ => t
  | .uint t _ _ => t
  | .float t _ _ => t
  | .complex t _ _ _ => t
  | .str t _ => t
  | .uptr t _ => t
  | .chan t _ => t
  | .func t _ => t
  | .nilPtr t => t
  | .ptr t _ _ => t
  | .nilSlice t => t
  | .slice t _ _ => t
  | .nilMap t => t
  | .map t _ _ => t
  | .array t _ => t
  | .struct t _ => t
  | .nilIface t => t
  | .iface t _ => t

/-- The kind of a signed integer value. -/
def IntKind.toKind : IntKind → Kind
  | .Int => .Int
  | .Int8 => .Int8
  | .Int16 => .Int16
  | .Int32 => .Int32
  | .Int64 => .Int64

/-- The kind of an unsigned integer value. -/
def UintKind.toKind : UintKind → Kind
  | .Uint => .Uint
  | .Uint8 => .Uint8
  | .Uint16 => .Uint16
  | .Uint32 => .Uint32
  | .Uint64 => .Uint64
  | .Uintptr => .Uintptr

/-- The kind of a value: `Value.Kind`. -/
def Val.kind : Val → Kind
  | .bool _ _ => .Bool
  | .int _ k _ => k.toKind
  | .uint _ k _ => k.toKind
  | .float _ wide _ => if wide then .Float64 else .Float32
  | .complex _ wide _ _ => if wide then .Complex128 else .Complex64
  | .str _ _ => .String
  | .uptr _ _ => .UnsafePointer
  | .chan _ _ => .Chan
  | .func _ _ => .Func
  | .nilPtr _ => .Pointer
  | .ptr _ _ _ => .Pointer
  | .nilSlice _ => .Slice
  | .slice _ _ _ => .Slice
  | .nilMap _ => .Map
  | .map _ _ _ => .Map
  | .array _ _ => .Array
  | .struct _ _ => .Struct
  | .nilIface _ => .Interface
  | .iface _ _ => .Interface

/-- The method `Value.IsNil`: whether the reference held by the value is nil. Go panics when
the kind is not one of channel, function, interface, map, pointer, slice or unsafe pointer;
`isNil` calls it on these kinds only, and the model answers `false` elsewhere. -/
def Val.IsNil : Val → Bool
  | .uptr _ addr => addr == 0
  | .chan _ ref => ref.isNone
  | .func _ code => code.isNone
  | .nilPtr _ => true
  | .nilSlice _ => true
  | .nilMap _ => true
  | .nilIface _ => true
  | _ => false

/-! ## Comparison: the operator `==` and `reflect.DeepEqual` -/

/-- Whether a `float64` bit pattern is a NaN: exponent bits all set and a non-zero
mantissa. -/
def isNaN (bits : Nat) : Bool := (bits / 2 ^ 52) % 2048 == 2047 && bits % 2 ^ 52 != 0

/-- Whether a `float64` bit pattern is one of the two zeros. -/
def isZero (bits : Nat) : Bool := bits % 2 ^ 63 == 0

/-- The operator `==` on floating-point numbers: a NaN equals nothing, the two zeros are
equal, and any other number equals only itself. -/
def floatEq (a b : Nat) : Bool := !isNaN a && !isNaN b && (a == b || (isZero a && isZero b))

/-- The length of a sequence of values. -/
def Vals.len : Vals → Nat
  | .nil => 0
  | .cons _ vs => vs.len + 1

/-- The number of entries of a map: `Value.Len`. -/
def Entries.len : Entries → Nat
  | .nil => 0
  | .cons _ _ es => es.len + 1

mutual
/-- The operator `==` on two values of the same type, as the language specification defines
it; `none` is the run-time panic raised when a function, slice or map value is compared
(which can be reached through an interface value only). Arrays and structs are compared
element by element, in order, stopping at the first difference. -/
def goEq : Val → Val → Option Bool
  | .bool _ a, .bool _ b => some (a == b)
  | .int _ _ a, .int _ _ b => some (a == b)
  | .uint _ _ a, .uint _ _ b => some (a == b)
  | .float _ _ a, .float _ _ b => some (floatEq a b)
  | .complex _ _ a1 a2, .complex _ _ b1 b2 => some (floatEq a1 b1 && floatEq a2 b2)
  | .str _ a, .str _ b => some (a == b)
  | .uptr _ a, .uptr _ b => some (a == b)
  | .chan _ a, .chan _ b => some (a == b)
  | .nilPtr _, .nilPtr _ => some true
  | .ptr _ a _, .ptr _ b _ => some (a == b)
  | .array _ xs, .array _ ys => goEqs xs ys
  | .struct _ xs, .struct _ ys => goEqs xs ys
  | .nilIface _, .nilIface _ => some true
  | .iface _ x, .iface _ y => if x.typeOf ≠ y.typeOf then some false else goEq x y
  | .func _ _, _ => none
  | .nilSlice _, _ => none
  | .slice _ _ _, _ => none
  | .nilMap _, _ => none
  | .map _ _ _, _ => none
  | _, _ => some false
/-- The operator `==` on the elements of two arrays or the fields of two structs. -/
def goEqs : Vals → Vals → Option Bool
  | .nil, .nil => some true
  | .cons x xs, .cons y ys =>
    match goEq x y with
    | some true => goEqs xs ys
    | r => r
  | _, _ => some false
end

/-- The operator `==` on two non-nil interface values with dynamic values `x` and `y`: false
when the dynamic types differ, else `==` on the dynamic values. -/
def ifaceEq (x y : Val) : Option Bool :=
  if x.typeOf ≠ y.typeOf then some false else goEq x y

/-- The method `Value.MapIndex`: the value stored under a key equal to `k`, if there is
one. -/
def Entries.lookup (k : Val) : Entries → Option Val
  | .nil => none
  | .cons k2 v es => if goEq k2 k = some true then some v else es.lookup k

mutual
/-- The function `deepValueEqual` of package `reflect`. The table of visited pointer pairs
is left out: it changes the result on cyclic values only, and values here are finite trees.
The special case for byte slices is left out as well: it computes what the loop computes. A
key of the first map that is not equal to itself (a NaN) is not found by `MapIndex` in its
own map, which makes the maps different. -/
def deepValueEqual : Val → Val → Bool
  | v1, v2 =>
    if v1.typeOf ≠ v2.typeOf then false
    else
      match v1, v2 with
      | .array _ xs, .array _ ys => deepVals xs ys
      | .nilSlice _, .nilSlice _ => true
      | .slice _ a xs, .slice _ b ys =>
        if xs.len ≠ ys.len then false
        else if a == b then true
        else deepVals xs ys
      | .nilIface _, .nilIface _ => true
      | .iface _ x, .iface _ y => deepValueEqual x y
      | .nilPtr _, .nilPtr _ => true
      | .ptr _ a x, .ptr _ b y => if a == b then true else deepValueEqual x y
      | .struct _ xs, .struct _ ys => deepVals xs ys
      | .nilMap _, .nilMap _ => true
      | .map _ a xs, .map _ b ys =>
        if xs.len ≠ ys.len then false
        else if a == b then true
        else deepEntries xs ys
      | .func _ a, .func _ b => a.isNone && b.isNone
      | .int _ _ a, .int _ _ b => a == b
      | .uint _ _ a, .uint _ _ b => a == b
      | .str _ a, .str _ b => a == b
      | .bool _ a, .bool _ b => a == b
      | .float _ _ a, .float _ _ b => floatEq a b
      | .complex _ _ a1 a2, .complex _ _ b1 b2 => floatEq a1 b1 && floatEq a2 b2
      | .chan _ a, .chan _ b => a == b
      | .uptr _ a, .uptr _ b => a == b
      | _, _ => false
/-- The loop of `deepValueEqual` over the elements of two arrays or slices, or over the
fields of two structs. -/
def deepVals : Vals → Vals → Bool
  | .nil, .nil => true
  | .cons x xs, .cons y ys => deepValueEqual x y && deepVals xs ys
  | _, _ => false
/-- The loop of `deepValueEqual` over the keys of the first map, looking each one up in both
maps. -/
def deepEntries : Entries → Entries → Bool
  | .nil, _ => true
  | .cons k v es, ys =>
    match goEq k k, ys.lookup k with
    | some true, some w => deepValueEqual v w && deepEntries es ys
    | _, _ => false
end

/-- The function `reflect.DeepEqual`. -/
def DeepEqual (x y : GoAny) : Bool :=
  match x, y with
  | none, none => true
  | none, some _ => false
  | some _, none => false
  | some v1, some v2 => if v1.typeOf ≠ v2.typeOf then false else deepValueEqual v1 v2

/-! ## Errors -/

/-- What an error value is by itself: its dynamic value `dyn` (what the `error` interface
holds), the string `msg` returned by its `Error` method, and its optional methods
`Is(error) bool`, `As(any) bool` and `Format(fmt.State, rune)`. `isM` is the `Is` method as a
predicate on the dynamic value of the (never nil) target. `asM` is the `As` method: given
the value currently stored in `*target` it returns the value stored there afterwards and its
boolean result. `formatM` is the `Format` method of an error that implements
`fmt.Formatter`: the text it writes for the verb `%v`. -/
structure ErrInfo where
  dyn : Val
  msg : String
  isM : Option (Val → Bool)
  asM : Option (Val → Val × Bool)
  formatM : Option String

mutual
/-- A non-nil error together with what it wraps: `leaf` has no `Unwrap` method, `wrapNil` has
an `Unwrap() error` that returns nil, `wrap` an `Unwrap() error` that returns `inner`, and
`join` an `Unwrap() []error` that returns `inners`. -/
inductive GoError where
  | leaf (info : ErrInfo)
  | wrapNil (info : ErrInfo)
  | wrap (info : ErrInfo) (inner : GoError)
  | join (info : ErrInfo) (inners : ErrList)
/-- A slice of errors as returned by `Unwrap() []error`; `consNil` is a nil entry. -/
inductive ErrList where
  | nil
  | consNil (tl : ErrList)
  | cons (e : GoError) (tl : ErrList)
end

/-- The error value at the root of the tree. -/
def GoError.info : GoError → ErrInfo
  | .leaf i => i
  | .wrapNil i => i
  | .wrap i _ => i
  | .join i _ => i

/-- The dynamic type of a non-nil error: `reflect.TypeOf(err)`. -/
def GoError.typeOf (e : GoError) : GoType := e.info.dyn.typeOf

/-- A value of the interface type `error`: `none` is the nil error. -/
abbrev GoErr := Option GoError

/-- An error converted to `interface{}`: the nil error gives the untyped nil, a non-nil one
its dynamic value. -/
def GoErr.toAny : GoErr → GoAny
  | none => none
  | some e => some e.info.dyn

/-! ## `errors.Is` and `errors.As` -/

/-- One turn of the loop of `errors.is` on the non-nil error `e`: `some true` when `e`
matches the target, either because the type of the target is comparable (`cmp`) and
`e == target`, or because `e` has an `Is` method that accepts the target; `none` when the
comparison panics. -/
def isHere (target : ErrInfo) (cmp : Bool) (e : ErrInfo) : Option Bool :=
  match (if cmp then ifaceEq e.dyn target.dyn else some false) with
  | none => none
  | some true => some true
  | some false =>
    match e.isM with
    | some f => some (f target.dyn)
    | none => some false

mutual
/-- The function `is` of package `errors`: the search for the target through `err` and all
that it wraps, depth first. -/
def is (target : ErrInfo) (cmp : Bool) : GoError → Option Bool
  | .leaf i => isHere target cmp i
  | .wrapNil i => isHere target cmp i
  | .wrap i inner =>
    match isHere target cmp i with
    | some false => is target cmp inner
    | r => r
  | .join i inners =>
    match isHere target cmp i with
    | some false => isAny target cmp inners
    | r => r
/-- The loop of `is` over the errors returned by `Unwrap() []error`; a nil entry matches
nothing. -/
def isAny (target : ErrInfo) (cmp : Bool) : ErrList → Option Bool
  | .nil => some false
  | .consNil tl => isAny target cmp tl
  | .cons e tl =>
    match is target cmp e with
    | some false => isAny target cmp tl
    | r => r
end

/-- The function `errors.Is`; `none` is a panic raised by `==`. -/
def Is (err target : GoErr) : Option Bool :=
  match err, target with
  | none, none => some true
  | none, some _ => some false
  | some _, none => some false
  | some e, some t => is t.info t.typeOf.comparable e

/-- Whether type `t` implements the interface type `it`: every method of `it` is in the
method set of `t`. -/
def implements (t it : GoType) : Bool := it.methods.all (fun m => t.methods.contains m)

/-- Whether a type implements the interface `error`, whose one method is `Error`. -/
def implementsError (t : GoType) : Bool := t.methods.contains "Error"

/-- The method `Type.AssignableTo`, from the type `t` of an error to the type of the
variable `slot` the target points to: the two types are the same, or the variable has an
interface type that `t` implements. -/
def assignableTo (t : GoType) (slot : Val) : Bool :=
  t == slot.typeOf || (slot.kind == Kind.Interface && implements t slot.typeOf)

/-- The statement `targetVal.Elem().Set(reflectlite.ValueOf(err))`: the new content of the
variable `slot` once the error with dynamic value `dyn` is stored in it. -/
def store (slot dyn : Val) : Val :=
  match slot with
  | .nilIface t => .iface t dyn
  | .iface t _ => .iface t dyn
  | _ => dyn

/-- One turn of the loop of `errors.as` on the non-nil error `e`, with `slot` the current
content of `*target`: whether the search ends here, and the content of `*target` after. -/
def asHere (e : ErrInfo) (slot : Val) : Bool × Val :=
  if assignableTo e.dyn.typeOf slot then (true, store slot e.dyn)
  else
    match e.asM with
    | some f => ((f slot).2, (f slot).1)
    | none => (false, slot)

mutual
/-- The function `as` of package `errors`: the search through `err` and all that it wraps,
depth first, for an error that can be stored in `*target`. -/
def as : GoError → Val → Bool × Val
  | .leaf i, slot => asHere i slot
  | .wrapNil i, slot => asHere i slot
  | .wrap i inner, slot =>
    match asHere i slot with
    | (true, s) => (true, s)
    | (false, s) => as inner s
  | .join i inners, slot =>
    match asHere i slot with
    | (true, s) => (true, s)
    | (false, s) => asAny inners s
/-- The loop of `as` over the errors returned by `Unwrap() []error`, skipping nil
entries. -/
def asAny : ErrList → Val → Bool × Val
  | .nil, slot => (false, slot)
  | .consNil tl, slot => asAny tl slot
  | .cons e tl, slot =>
    match as e slot with
    | (true, s) => (true, s)
    | (false, s) => asAny tl s
end

/-- The function `errors.As`: a panic message, or the boolean result together with the
target after the call (the same pointer, with what `*target` now holds). -/
def As (err : GoErr) (target : GoAny) : Except String (Bool × GoAny) :=
  match err with
  | none => .ok (false, target)
  | some e =>
    match target with
    | none => .error "errors: target cannot be nil"
    | some (.ptr t addr slot) =>
      if slot.kind != Kind.Interface && !implementsError slot.typeOf then
        .error "errors: *target must be interface or implement error"
      else .ok ((as e slot).1, some (.ptr t addr (as e slot).2))
    | some _ => .error "errors: target must be a non-nil pointer"

/-- The expression `reflect.Indirect(reflect.ValueOf(want)).Type()`; `none` is the panic of
`Value.Type` on the zero `Value`, which is what `ValueOf(nil)` and the `Elem` of a nil
pointer are. -/
def indirectType (want : GoAny) : Option GoType :=
  match want with
  | none => none
  | some (.nilPtr _) => none
  | some (.ptr _ _ slot) => some slot.typeOf
  | some v => some v.typeOf

/-! ## The reporter -/

/-- An argument passed to `Errorf` or `Fatalf`: a value of type `interface{}`, an error, or a
`reflect.Type`. -/
inductive Arg where
  | val (v : GoAny)
  | err (e : GoErr)
  | typ (t : GoType)

/-- A call made on the reporter `t` (interface `T`), with its arguments. -/
inductive Call where
  | Helper
  | Errorf (format : String) (args : List Arg)
  | Fatalf (format : String) (args : List Arg)

/-- Whether the call is `t.Errorf`. -/
def Call.isErrorf : Call → Bool
  | .Errorf _ _ => true
  | _ => false

/-- Whether the call is `t.Fatalf`. -/
def Call.isFatalf : Call → Bool
  | .Fatalf _ _ => true
  | _ => false

/-- The number of calls of `t.Errorf` in a sequence of calls. -/
def countErrorf (cs : List Call) : Nat := cs.countP Call.isErrorf

/-- The number of calls of `t.Fatalf` in a sequence of calls. -/
def countFatalf (cs : List Call) : Nat := cs.countP Call.isFatalf

/-! ## Formatting: the part of `fmt.Sprintf` the messages go through -/

/-- Whether every character of the string is printable ASCII other than the double quote
and the backslash, so that `strconv.Quote` only puts the string between double quotes. -/
def plainText (s : String) : Bool :=
  s.toList.all (fun c => 32 ≤ c.toNat && c.toNat ≤ 126 && c != '"' && c.toNat != 92)

/-- The verb `%v` on one operand: a nil interface prints `<nil>`; an error prints what its
`Format` method writes when its type implements `fmt.Formatter`, which `fmt` asks first, and
the result of its `Error` method otherwise; a `reflect.Type` prints the result of its
`String` method. For other values only booleans, integers and strings of types without a
`Format`, `Error` or `String` method are modelled; `none` stands for an operand outside this
fragment, an error with a `Format` method of unknown output included. -/
def fmtV : Arg → Option String
  | .err none => some "<nil>"
  | .err (some e) =>
    match e.info.formatM with
    | some text => some text
    | none => if e.typeOf.methods.contains "Format" then none else some e.info.msg
  | .typ t => some t.name
  | .val none => some "<nil>"
  | .val (some v) =>
    if v.typeOf.methods.contains "Format" || v.typeOf.methods.contains "Error"
        || v.typeOf.methods.contains "String" then none
    else
      match v with
      | .bool _ b => some (if b then "true" else "false")
      | .int _ _ n => some (toString n)
      | .uint _ _ n => some (toString n)
      | .str _ s => some s
      | _ => none

/-- The verb `%T` on one operand: the name of its dynamic type, `<nil>` for a nil
interface. -/
def fmtT : Arg → String
  | .err none => "<nil>"
  | .err (some e) => e.typeOf.name
  | .typ _ => "*reflect.rtype"
  | .val none => "<nil>"
  | .val (some v) => v.typeOf.name

/-- The verb `%#v` (Go syntax) on one operand. Modelled: the nil interface, booleans, signed
integers, strings that need no escaping, and nil pointers, for types without a `Format` or
`GoString` method; `none` stands for an operand outside this fragment. -/
def fmtSharpV : Arg → Option String
  | .val none => some "<nil>"
  | .val (some v) =>
    if v.typeOf.methods.contains "Format" || v.typeOf.methods.contains "GoString" then none
    else
      match v with
      | .bool _ b => some (if b then "true" else "false")
      | .int _ _ n => some (toString n)
      | .str _ s => if plainText s then some ("\"" ++ s ++ "\"") else none
      | .nilPtr t => some ("(" ++ t.name ++ ")(nil)")
      | _ => none
  | _ => none

/-- The function `fmt.Sprintf` on a format made of plain text and the verbs `%v`, `%T` and
`%#v`, each with its operand; `none` stands for a format or an operand outside this
fragment. -/
def sprintfChars : List Char → List Arg → Option String
  | [], [] => some ""
  | [], _ :: _ => none
  | '%' :: 'v' :: cs, a :: rest =>
    match fmtV a, sprintfChars cs rest with
    | some x, some r => some (x ++ r)
    | _, _ => none
  | '%' :: 'T' :: cs, a :: rest =>
    match sprintfChars cs rest with
    | some r => some (fmtT a ++ r)
    | none => none
  | '%' :: '#' :: 'v' :: cs, a :: rest =>
    match fmtSharpV a, sprintfChars cs rest with
    | some x, some r => some (x ++ r)
    | _, _ => none
  | '%' :: _, _ => none
  | c :: cs, args =>
    match sprintfChars cs args with
    | some r => some (String.singleton c ++ r)
    | none => none

/-- The function `fmt.Sprintf`, on the fragment of `sprintfChars`. -/
def sprintf (format : String) (args : List Arg) : Option String :=
  sprintfChars format.toList args

/-- The message a reporter that formats with `fmt.Sprintf` (as `*testing.T` and the `tMock`
of the tests do) records for a call of `Errorf` or `Fatalf`. -/
def Call.message : Call → Option String
  | .Helper => none
  | .Errorf format args => sprintf format args
  | .Fatalf format args => sprintf format args

/-! ## `assert.go` -/

/-- The function `isNil` of `assert.go`. -/
def isNil (v : GoAny) : Bool :=
  match v with
  | none => true
  | some value =>
    match value.kind with
    | .Interface | .Chan | .Slice | .Map | .Func | .Pointer => value.IsNil
    | _ => false

/-- The function `FailOnError` of `assert.go`: the calls it makes on `t`. -/
def FailOnError (err : GoErr) : List Call :=
  Call.Helper ::
    (match err with
     | some _ => [Call.Fatalf "unexpected error: %v" [Arg.err err]]
     | none => [])

/-- The function `Nil` of `assert.go`: the calls it makes on `t`. -/
def Nil (v : GoAny) : List Call :=
  Call.Helper ::
    (if !isNil v then [Call.Errorf "assert.Nil failed\nwant: nil\n got: %#v" [Arg.val v]]
     else [])

/-- The function `Equals` of `assert.go`: the calls it makes on `t`. -/
def Equals (got want : GoAny) : List Call :=
  Call.Helper ::
    (if !DeepEqual got want then
       [Call.Errorf "assert.Equals failed\nwant: %T(%v)\n got: %T(%v)"
          [Arg.val want, Arg.val want, Arg.val got, Arg.val got]]
     else [])

/-- What a call of `IsError` does: the calls made on `t`, in order, and the message of the
panic that ended the call (`none` when it returned). -/
structure Outcome where
  calls : List Call
  panic : Option String

/-- What a call of `AsError` does: the calls made on `t`, in order, the message of the panic
that ended the call (`none` when it returned), and the argument `want` after the call (the
same pointer, with what the variable it points to now holds). -/
structure AsOutcome where
  calls : List Call
  panic : Option String
  want : GoAny

/-- The function `IsError` of `assert.go`. A panic can only come from `==` inside
`errors.Is`; its message is the one of the run-time error, without the name of the type
that ends it. -/
def IsError (got want : GoErr) : Outcome :=
  match Is got want with
  | none => ⟨[Call.Helper], some "runtime error: comparing uncomparable type"⟩
  | some true => ⟨[Call.Helper], none⟩
  | some false =>
    ⟨[Call.Helper,
      Call.Errorf "assert.IsError failed\nwant: %T(%v)\n got: %T(%v)"
        [Arg.err want, Arg.err want, Arg.err got, Arg.err got]], none⟩

/-- The function `AsError` of `assert.go`. -/
def AsError (got : GoErr) (want : GoAny) : AsOutcome :=
  match As got want with
  | .error msg => ⟨[Call.Helper], some msg, want⟩
  | .ok (true, w) => ⟨[Call.Helper], none, w⟩
  | .ok (false, w) =>
    match indirectType w with
    | none => ⟨[Call.Helper], some "reflect: call of reflect.Value.Type on zero Value", w⟩
    | some typ =>
      ⟨[Call.Helper,
        Call.Errorf "assert.AsError failed\nwant: %v\n got: %T" [Arg.typ typ, Arg.err got]],
        none, w⟩

/-! ## The notions the specification is stated with -/

/-- The semantic nil of the specification: the untyped nil, or a value of kind interface,
channel, slice, map, function or pointer whose reference is nil. -/
def semanticNil : GoAny → Bool
  | none => true
  | some (.nilIface _) => true
  | some (.chan _ none) => true
  | some (.nilSlice _) => true
  | some (.nilMap _) => true
  | some (.func _ none) => true
  | some (.nilPtr _) => true
  | some _ => false

/-- The concrete run-time type of a value of type `interface{}`; the untyped nil has
none. -/
def dynType : GoAny → Option GoType
  | none => none
  | some v => some v.typeOf

mutual
/-- Whether no non-nil function value and no NaN can be reached in the value through struct
fields, array elements and interface values, that is without going through a pointer, a
slice or a map. -/
def funcAndNaNFree : Val → Bool
  | .float _ _ a => !isNaN a
  | .complex _ _ a b => !isNaN a && !isNaN b
  | .func _ code => code.isNone
  | .array _ xs => funcAndNaNFreeAll xs
  | .struct _ xs => funcAndNaNFreeAll xs
  | .iface _ x => funcAndNaNFree x
  | _ => true
/-- The same for every element of an array or field of a struct. -/
def funcAndNaNFreeAll : Vals → Bool
  | .nil => true
  | .cons x xs => funcAndNaNFree x && funcAndNaNFreeAll xs
end

/-- The condition `funcAndNaNFree` on a value of type `interface{}`; the untyped nil
satisfies it. -/
def GoAny.funcAndNaNFree : GoAny → Bool
  | none => true
  | some v => Assert.funcAndNaNFree v

mutual
/-- The wrap chain of a non-nil error: the error itself followed by everything it wraps, in
the order in which `errors.Is` and `errors.As` visit them (depth first, nil entries
skipped). -/
def chain : GoError → List ErrInfo
  | .leaf i => [i]
  | .wrapNil i => [i]
  | .wrap i inner => i :: chain inner
  | .join i inners => i :: chainAll inners
/-- The wrap chains of the errors of a list, one after the other. -/
def chainAll : ErrList → List ErrInfo
  | .nil => []
  | .consNil tl => chainAll tl
  | .cons e tl => chain e ++ chainAll tl
end

/-- The search of `errors.is` along a list of errors: the first error that matches the
target, or whose comparison panics, decides. -/
def isList (target : ErrInfo) (cmp : Bool) : List ErrInfo → Option Bool
  | [] => some false
  | i :: rest =>
    match isHere target cmp i with
    | some false => isList target cmp rest
    | r => r

/-- The search of `errors.as` along a list of errors, from the content `slot` of
`*target`. -/
def asList : List ErrInfo → Val → Bool × Val
  | [], slot => (false, slot)
  | i :: rest, slot =>
    match asHere i slot with
    | (true, s) => (true, s)
    | (false, s) => asList rest s

/-- Whether the error `e` compares equal to the target `want`: the type of `want` is
comparable and `e == want` evaluates to true. -/
def comparesEqual (e want : ErrInfo) : Bool :=
  want.dyn.typeOf.comparable && (ifaceEq e.dyn want.dyn == some true)

/-- Whether the error `e` accepts the target `want` through its custom `Is` method. -/
def acceptsByIs (e want : ErrInfo) : Bool :=
  match e.isM with
  | some f => f want.dyn
  | none => false

/-- Whether `got` itself or some error of its wrap chain compares equal to `want` or accepts
it through its `Is` method; the nil error compares equal to the nil error only. -/
def matchInChain : GoErr → GoErr → Bool
  | none, none => true
  | some e, some w => (chain e).any (fun i => comparesEqual i w.info || acceptsByIs i w.info)
  | _, _ => false

/-- Whether the value `s` can be the content of the variable whose content is `slot`: it has
the type of the variable, and it is an interface value exactly when the variable is of
interface type. -/
def sameSlotType (slot s : Val) : Bool :=
  s.typeOf == slot.typeOf && ((s.kind == Kind.Interface) == (slot.kind == Kind.Interface))

/-- Whether every custom `As` method of the errors of the list rejects the target (returns
false), each one asked in order with what the ones before it left in the variable, which
holds `s` at the start. -/
def asRejects : List ErrInfo → Val → Bool
  | [], _ => true
  | j :: rest, s =>
    match j.asM with
    | none => asRejects rest s
    | some f => !(f s).2 && asRejects rest (f s).1

/-- Whether what the custom `As` methods of the errors of the list store in the variable,
each one asked in order until one accepts the target, is a value of the type of the
variable, as the typing of the Go program makes sure; `slot` is the content of the variable
before the call and `s` its content when the list is entered. -/
def asWritesTyped (slot : Val) : List ErrInfo → Val → Bool
  | [], _ => true
  | j :: rest, s =>
    match j.asM with
    | none => asWritesTyped slot rest s
    | some f => sameSlotType slot (f s).1 && ((f s).2 || asWritesTyped slot rest (f s).1)

/-- What the first custom `As` method of the list that accepts the target leaves in the
variable, each method asked in order with what the ones before it left there; when none
accepts, what the last one left. -/
def asLeaves : List ErrInfo → Val → Val
  | [], s => s
  | j :: rest, s =>
    match j.asM with
    | none => asLeaves rest s
    | some f => if (f s).2 then (f s).1 else asLeaves rest (f s).1

/-- Whether a value of type `interface{}` is a non-nil pointer. -/
def isNonNilPointer : GoAny → Bool
  | some (.ptr _ _ _) => true
  | _ => false

/-- Whether the call is `t.Helper`. -/
def Call.isHelper : Call → Bool
  | .Helper => true
  | _ => false

/-- The number of calls of `t.Helper` in a sequence of calls. -/
def countHelper (cs : List Call) : Nat := cs.countP Call.isHelper

/-- Whether every custom `As` method found in the wrap chain of `got` writes to the target
only when it accepts it: whenever it returns false, what the target points to is as
before. -/
def rejectingAsKeeps : GoErr → Prop
  | none => True
  | some e => ∀ j ∈ chain e, ∀ f, j.asM = some f → ∀ s, (f s).2 = false → (f s).1 = s

/-! ## Values used as examples -/

/-- The type `int`. -/
def tInt : GoType := ⟨"int", true, []⟩

/-- The type `int32`. -/
def tInt32 : GoType := ⟨"int32", true, []⟩

/-- The type `int64`. -/
def tInt64 : GoType := ⟨"int64", true, []⟩

/-- The type `string`. -/
def tString : GoType := ⟨"string", true, []⟩

/-- The type `*bytes.Buffer`, with some of its methods. -/
def tBufferPtr : GoType := ⟨"*bytes.Buffer", true, ["Read", "Write", "String"]⟩

/-- The value of `reader` in `TestNil_successWithNilValueTypedInterface`, passed as
`interface{}`: a nil `*bytes.Buffer`. -/
def nilBuffer : GoAny := some (.nilPtr tBufferPtr)

/-- The string `"abc"` passed as `interface{}`. -/
def abcString : GoAny := some (.str tString "abc")

/-- The value `int32(42)` passed as `interface{}`. -/
def fortyTwo32 : GoAny := some (.int tInt32 .Int32 42)

/-- The value `int64(42)` passed as `interface{}`. -/
def fortyTwo64 : GoAny := some (.int tInt64 .Int64 42)

/-- The type `func()`. -/
def tFunc : GoType := ⟨"func()", false, []⟩

/-- A non-nil function value (a function declared in the program, say) passed as
`interface{}`. -/
def someFunc : GoAny := some (.func tFunc (some 1))

/-- The type `struct { N int; F *func() }`. -/
def tPair : GoType := ⟨"struct { N int; F *func() }", true, []⟩

/-- The type `*func()`. -/
def tFuncPtr : GoType := ⟨"*func()", true, []⟩

/-- A struct holding an integer and a pointer to a non-nil function, passed as
`interface{}`. -/
def pairWithFuncPtr : GoAny :=
  some (.struct tPair (.cons (.int tInt .Int 3)
    (.cons (.ptr tFuncPtr 4096 (.func tFunc (some 1))) .nil)))

/-- The type `errors.errorString`. -/
def tErrorString : GoType := ⟨"errors.errorString", true, []⟩

/-- The type `*errors.errorString`. -/
def tErrorStringPtr : GoType := ⟨"*errors.errorString", true, ["Error"]⟩

/-- The function `errors.New`: a pointer to a new `errorString`; `addr` is the address of
the allocation, different at every call. -/
def errorsNew (addr : Nat) (text : String) : GoError :=
  .leaf ⟨.ptr tErrorStringPtr addr (.struct tErrorString (.cons (.str tString text) .nil)),
    text, none, none, none⟩

/-- The error type `type multiErr []string`, with an `Error` method: a slice type, on which
`==` is not defined. -/
def tMultiErr : GoType := ⟨"main.multiErr", false, ["Error"]⟩

/-- The error `multiErr{"a"}`. -/
def multiErrA : GoError :=
  .leaf ⟨.slice tMultiErr 8192 (.cons (.str tString "a") .nil), "a", none, none, none⟩

/-- The error type `type codeErr string`, with the method
`func (e codeErr) Error() string { return string(e) }`. -/
def tCodeErr : GoType := ⟨"main.codeErr", true, ["Error"]⟩

/-- The error `codeErr("some error")`, created for `got`. -/
def codeErrGot : GoError := .leaf ⟨.str tCodeErr "some error", "some error", none, none, none⟩

/-- The error `codeErr("some error")`, created a second time for `want`. -/
def codeErrWant : GoError := .leaf ⟨.str tCodeErr "some error", "some error", none, none, none⟩

/-- The interface type `error`. -/
def tError : GoType := ⟨"error", true, ["Error"]⟩

/-- The type `fs.PathError` (`os.PathError`); its methods have pointer receivers. -/
def tPathError : GoType := ⟨"fs.PathError", true, []⟩

/-- The type `*fs.PathError`. -/
def tPathErrorPtr : GoType := ⟨"*fs.PathError", true, ["Error", "Unwrap", "Timeout"]⟩

/-- The type `**fs.PathError`. -/
def tPathErrorPtrPtr : GoType := ⟨"**fs.PathError", true, []⟩

/-- The dynamic value of `&fs.PathError{Op: op, Path: "/some/path"}` allocated at `addr`,
with a nil `Err`. -/
def pathErrorAt (addr : Nat) (op : String) : Val :=
  .ptr tPathErrorPtr addr
    (.struct tPathError
      (.cons (.str tString op) (.cons (.str tString "/some/path") (.cons (.nilIface tError) .nil))))

/-- The error `&fs.PathError{Op: "read", Path: "/some/path"}`, whose `Unwrap` returns its nil
`Err`. -/
def readPathError : GoError :=
  .wrapNil ⟨pathErrorAt 12288 "read", "read /some/path", none, none, none⟩

/-- The argument `&target` of the tests, where `var target *os.PathError` is nil. -/
def addrOfNilPathErrorPtr : GoAny := some (.ptr tPathErrorPtrPtr 49152 (.nilPtr tPathErrorPtr))

/-- The zero value of `os.PathError`: the variable `target` of
`TestAsError_failWhenTargetIsIncorretType`. -/
def zeroPathError : Val :=
  .struct tPathError
    (.cons (.str tString "") (.cons (.str tString "") (.cons (.nilIface tError) .nil)))

/-- The argument `&target` of `TestAsError_failWhenTargetIsIncorretType`. -/
def addrOfPathError : GoAny := some (.ptr tPathErrorPtr 53248 zeroPathError)

/-- The argument `target` of `TestAsError_failWhenTargetIsNotAPointer`: the nil
`*os.PathError` itself. -/
def nilPathErrorPtr : GoAny := some (.nilPtr tPathErrorPtr)

/-- The error type `type redirect struct{ err error }`, with the methods `Error`, `Unwrap`
and an `As` that serves targets of type `**fs.PathError`. -/
def tRedirect : GoType := ⟨"main.redirect", true, ["Error", "Unwrap", "As"]⟩

/-- The error `redirect{readPathError}`. Its `As` method stores a `*fs.PathError` of its own,
`&fs.PathError{Op: "stat", Path: "/some/path"}`, in a target of type `**fs.PathError` and
returns true; it rejects every other target. -/
def redirectError : GoError :=
  .wrap
    ⟨.struct tRedirect (.cons (.iface tError (pathErrorAt 12288 "read")) .nil), "redirect", none,
      some (fun slot =>
        if slot.typeOf = tPathErrorPtr then (pathErrorAt 16384 "stat", true) else (slot, false)),
      none⟩
    readPathError

/-- The error `io.EOF`, made by `errors.New("EOF")` when package `io` is set up. -/
def ioEOF : GoError := errorsNew 4096 "EOF"

/-- The value `42` of type `int` passed as `interface{}`. -/
def fortyTwo : GoAny := some (.int tInt .Int 42)

/-- The value `24` of type `int` passed as `interface{}`. -/
def twentyFour : GoAny := some (.int tInt .Int 24)

/-- The error `redirect{io.EOF}`: the type `redirect` above, wrapping `io.EOF`. No error of
its wrap chain is a `*fs.PathError`, and its `As` method serves targets of type
`**fs.PathError` all the same. -/
def redirectEOF : GoError :=
  .wrap
    ⟨.struct tRedirect (.cons (.iface tError ioEOF.info.dyn) .nil), "redirect", none,
      some (fun slot =>
        if slot.typeOf = tPathErrorPtr then (pathErrorAt 16384 "stat", true) else (slot, false)),
      none⟩
    ioEOF

/-- The error type `type sloppy struct{}`, with the methods `Error` and `As`. -/
def tSloppy : GoType := ⟨"main.sloppy", true, ["Error", "As"]⟩

/-- The error `sloppy{}`. Its `As` method stores `&fs.PathError{Op: "stat", Path:
"/some/path"}` in a target of type `**fs.PathError` and then returns false. -/
def sloppyError : GoError :=
  .leaf
    ⟨.struct tSloppy .nil, "sloppy", none,
      some (fun slot =>
        if slot.typeOf = tPathErrorPtr then (pathErrorAt 16384 "stat", false) else (slot, false)),
      none⟩

/-- The error type `type myErr struct{}` with the method
`func (*myErr) Error() string { return "my error" }` on its pointer type `*myErr`. -/
def tMyErrPtr : GoType := ⟨"*main.myErr", true, ["Error"]⟩

/-- The error `(*myErr)(nil)`: a non-nil error value that holds a nil pointer. -/
def nilMyErr : GoError := .leaf ⟨.nilPtr tMyErrPtr, "my error", none, none, none⟩

/-- The error type `type verbose struct{}`, with the methods
`func (verbose) Error() string { return "boom" }` and
`func (verbose) Format(f fmt.State, verb rune) { io.WriteString(f, "boom (main.go:10)") }`. -/
def tVerbose : GoType := ⟨"main.verbose", true, ["Error", "Format"]⟩

/-- The error `verbose{}`. -/
def verboseError : GoError :=
  .leaf ⟨.struct tVerbose .nil, "boom", none, none, some "boom (main.go:10)"⟩

/-! ## Theorems -/

/-- C1: for every value `v` that is the untyped nil, or of kind interface, channel, slice,
map, function or pointer with a nil reference (a typed nil pointer stored in an interface
included), `Nil(t, v)` only calls `t.Helper`: it calls neither `t.Errorf` nor `t.Fatalf`. -/
theorem Nil_semanticNil_no_failure (v : GoAny) (h : semanticNil v = true) :
    Nil v = [Call.Helper] ∧ countErrorf (Nil v) = 0 ∧ countFatalf (Nil v) = 0 := by
  have hn : isNil v = true := by
    rcases v with _ | v
    · rfl
    · cases v with
      | chan t r => cases r <;> first | rfl | simp [semanticNil] at h
      | func t r => cases r <;> first | rfl | simp [semanticNil] at h
      | _ => first | rfl | simp [semanticNil] at h
  simp [Nil, hn, countErrorf, countFatalf, Call.isErrorf, Call.isFatalf]

/-- Witness of C1: the nil `*bytes.Buffer` held by an interface is not the untyped nil, and
`Nil` accepts it. -/
theorem Nil_semanticNil_no_failure_witness :
    nilBuffer ≠ none ∧ semanticNil nilBuffer = true ∧
      (Nil nilBuffer = [Call.Helper] ∧ countErrorf (Nil nilBuffer) = 0 ∧
        countFatalf (Nil nilBuffer) = 0) :=
  ⟨by simp [nilBuffer], by decide, Nil_semanticNil_no_failure nilBuffer (by decide)⟩

/-- C2: for every value `v` that is not a semantic nil (any value of another kind, and any
value of kind interface, channel, slice, map, function or pointer with a non-nil
reference), `Nil(t, v)` calls `t.Helper`, then `t.Errorf` exactly once, with `v` as operand,
and never `t.Fatalf`. -/
theorem Nil_not_semanticNil_one_Errorf (v : GoAny) (h : semanticNil v = false) :
    Nil v = [Call.Helper, Call.Errorf "assert.Nil failed\nwant: nil\n got: %#v" [Arg.val v]] ∧
      countErrorf (Nil v) = 1 ∧ countFatalf (Nil v) = 0 := by
  have hn : isNil v = false := by
    rcases v with _ | v
    · simp [semanticNil] at h
    · cases v with
      | int t k n => cases k <;> rfl
      | uint t k n => cases k <;> rfl
      | float t w b => cases w <;> rfl
      | complex t w a b => cases w <;> rfl
      | chan t r => cases r <;> first | rfl | simp [semanticNil] at h
      | func t r => cases r <;> first | rfl | simp [semanticNil] at h
      | _ => first | rfl | simp [semanticNil] at h
  simp [Nil, hn, countErrorf, countFatalf, Call.isErrorf, Call.isFatalf]

/-- Witness of C2: the string `"abc"` of `TestNil_failsWithNotNil`. -/
theorem Nil_not_semanticNil_one_Errorf_witness :
    semanticNil abcString = false ∧
      (Nil abcString =
          [Call.Helper,
            Call.Errorf "assert.Nil failed\nwant: nil\n got: %#v" [Arg.val abcString]] ∧
        countErrorf (Nil abcString) = 1 ∧ countFatalf (Nil abcString) = 0) :=
  ⟨by decide, Nil_not_semanticNil_one_Errorf abcString (by decide)⟩

/-- C3: whenever the concrete run-time types of `got` and `want` differ, `Equals(t, got,
want)` reports a failure: it calls `t.Errorf` exactly once (and never `t.Fatalf`), whatever
the two values are. -/
theorem Equals_different_types_fails (got want : GoAny) (h : dynType got ≠ dynType want) :
    Equals got want =
        [Call.Helper,
          Call.Errorf "assert.Equals failed\nwant: %T(%v)\n got: %T(%v)"
            [Arg.val want, Arg.val want, Arg.val got, Arg.val got]] ∧
      countErrorf (Equals got want) = 1 ∧ countFatalf (Equals got want) = 0 := by
  have hd : DeepEqual got want = false := by
    rcases got with _ | a <;> rcases want with _ | b
    · exact absurd rfl h
    · rfl
    · rfl
    · have : a.typeOf ≠ b.typeOf := fun e => h (by simp [dynType, e])
      simp [DeepEqual, this]
  simp [Equals, hd, countErrorf, countFatalf, Call.isErrorf, Call.isFatalf]

/-- Witness of C3: `int32(42)` against `int64(42)`, numerically equal and of different
types, as in `TestEquals_failsWhenValuesHaveDifferentTypes`. -/
theorem Equals_different_types_fails_witness :
    dynType fortyTwo32 ≠ dynType fortyTwo64 ∧
      (Equals fortyTwo32 fortyTwo64 =
          [Call.Helper,
            Call.Errorf "assert.Equals failed\nwant: %T(%v)\n got: %T(%v)"
              [Arg.val fortyTwo64, Arg.val fortyTwo64, Arg.val fortyTwo32, Arg.val fortyTwo32]] ∧
        countErrorf (Equals fortyTwo32 fortyTwo64) = 1 ∧
        countFatalf (Equals fortyTwo32 fortyTwo64) = 0) :=
  ⟨by decide, Equals_different_types_fails fortyTwo32 fortyTwo64 (by decide)⟩

/-- The message of the failure of `FailOnError`: the format of `FailOnError` with its
operand, which `%v` renders as `x`. -/
theorem sprintf_FailOnError (err : Arg) (x : String) (hx : fmtV err = some x) :
    sprintf "unexpected error: %v" [err] = some ("unexpected error: " ++ x) := by
  have hl : "unexpected error: %v".toList
      = ['u', 'n', 'e', 'x', 'p', 'e', 'c', 't', 'e', 'd', ' ', 'e', 'r', 'r', 'o', 'r', ':',
          ' ', '%', 'v'] := rfl
  rw [sprintf, hl]
  simp only [sprintfChars, hx, Option.some.injEq]
  apply String.ext
  simp [String.data_append, String.singleton]

/-- C8, as amended: for a non-nil `err`, `FailOnError(t, err)` calls `t.Helper` and then
`t.Fatalf` exactly once, with the format `unexpected error: %v` and `err` as operand, and it
does not call `t.Errorf`; the message is `unexpected error: ` followed by the message of
`err` (the result of `Error`) when the type of `err` does not implement `fmt.Formatter`,
and followed by what its `Format` method writes when it does. For the nil error it calls
neither `t.Fatalf` nor `t.Errorf`. -/
theorem FailOnError_fatal_iff_error :
    (∀ e : GoError,
        FailOnError (some e) =
            [Call.Helper, Call.Fatalf "unexpected error: %v" [Arg.err (some e)]] ∧
          countFatalf (FailOnError (some e)) = 1 ∧ countErrorf (FailOnError (some e)) = 0 ∧
          (e.info.formatM = none → e.typeOf.methods.contains "Format" = false →
            (FailOnError (some e)).map Call.message
              = [none, some ("unexpected error: " ++ e.info.msg)]) ∧
          (∀ text : String, e.info.formatM = some text →
            (FailOnError (some e)).map Call.message
              = [none, some ("unexpected error: " ++ text)])) ∧
      (FailOnError none = [Call.Helper] ∧ countFatalf (FailOnError none) = 0 ∧
        countErrorf (FailOnError none) = 0) := by
  refine ⟨fun e => ⟨rfl, rfl, rfl, fun hf hm => ?_, fun text hf => ?_⟩, rfl, rfl, rfl⟩
  · have hx : fmtV (Arg.err (some e)) = some e.info.msg := by
      show (match e.info.formatM with
        | some text => some text
        | none => if e.typeOf.methods.contains "Format" = true then none else some e.info.msg)
        = some e.info.msg
      rw [hf]
      show (if e.typeOf.methods.contains "Format" = true then none else some e.info.msg)
        = some e.info.msg
      rw [hm]
      rfl
    simp [FailOnError, Call.message, sprintf_FailOnError _ _ hx]
  · have hx : fmtV (Arg.err (some e)) = some text := by
      simp [fmtV, hf]
    simp [FailOnError, Call.message, sprintf_FailOnError _ _ hx]

/-- Counterexample to C8 as stated: the type of `verbose{}` implements `fmt.Formatter`, so
`%v` prints what `Format` writes, and the message recorded by `FailOnError` is not
`unexpected error: ` followed by the message `boom` of the error. -/
theorem FailOnError_Formatter_message :
    verboseError.info.msg = "boom" ∧
      (FailOnError (some verboseError)).map Call.message
        = [none, some "unexpected error: boom (main.go:10)"] ∧
      (FailOnError (some verboseError)).map Call.message
        ≠ [none, some ("unexpected error: " ++ verboseError.info.msg)] := by
  decide

/-- Witness of C8 as amended: `TestFailOnError_failsWithAnError`, where the error
`errors.New("abc")`, without a `Format` method, gives the fatal message
`unexpected error: abc`. -/
theorem FailOnError_fatal_iff_error_witness :
    (errorsNew 1 "abc").info.formatM = none ∧
      (errorsNew 1 "abc").typeOf.methods.contains "Format" = false ∧
      (FailOnError (some (errorsNew 1 "abc"))).map Call.message
        = [none, some "unexpected error: abc"] :=
  ⟨rfl, by decide, (FailOnError_fatal_iff_error.1 (errorsNew 1 "abc")).2.2.2.1 rfl (by decide)⟩

/-- The operator `==` on floating-point numbers holds between a number and itself unless
the number is a NaN. -/
theorem floatEq_self (a : Nat) : floatEq a a = !isNaN a := by
  simp [floatEq]

mutual
/-- A value is deeply equal to itself exactly when it satisfies `funcAndNaNFree`. -/
theorem deepValueEqual_self : ∀ v : Val, deepValueEqual v v = funcAndNaNFree v
  | .bool t b => by
    show (if t ≠ t then false else b == b) = true
    simp
  | .int t _ n => by
    show (if t ≠ t then false else n == n) = true
    simp
  | .uint t _ n => by
    show (if t ≠ t then false else n == n) = true
    simp
  | .float t _ a => by
    show (if t ≠ t then false else floatEq a a) = !isNaN a
    simp [floatEq_self]
  | .complex t _ a b => by
    show (if t ≠ t then false else floatEq a a && floatEq b b) = (!isNaN a && !isNaN b)
    simp [floatEq_self]
  | .str t a => by
    show (if t ≠ t then false else a == a) = true
    simp
  | .uptr t a => by
    show (if t ≠ t then false else a == a) = true
    simp
  | .chan t a => by
    show (if t ≠ t then false else a == a) = true
    simp
  | .func t a => by
    show (if t ≠ t then false else a.isNone && a.isNone) = a.isNone
    simp
  | .nilPtr t => by
    show (if t ≠ t then false else true) = true
    simp
  | .ptr t a x => by
    show (if t ≠ t then false else if a == a then true else deepValueEqual x x) = true
    simp
  | .nilSlice t => by
    show (if t ≠ t then false else true) = true
    simp
  | .slice t a xs => by
    show (if t ≠ t then false else if xs.len ≠ xs.len then false
      else if a == a then true else deepVals xs xs) = true
    simp
  | .nilMap t => by
    show (if t ≠ t then false else true) = true
    simp
  | .map t a xs => by
    show (if t ≠ t then false else if xs.len ≠ xs.len then false
      else if a == a then true else deepEntries xs xs) = true
    simp
  | .array t xs => by
    show (if t ≠ t then false else deepVals xs xs) = funcAndNaNFreeAll xs
    simp [deepVals_self xs]
  | .struct t xs => by
    show (if t ≠ t then false else deepVals xs xs) = funcAndNaNFreeAll xs
    simp [deepVals_self xs]
  | .nilIface t => by
    show (if t ≠ t then false else true) = true
    simp
  | .iface t x => by
    show (if t ≠ t then false else deepValueEqual x x) = funcAndNaNFree x
    simp [deepValueEqual_self x]
/-- The elements of an array are deeply equal to themselves exactly when each satisfies
`funcAndNaNFree`. -/
theorem deepVals_self : ∀ xs : Vals, deepVals xs xs = funcAndNaNFreeAll xs
  | .nil => rfl
  | .cons x xs => by
    show (deepValueEqual x x && deepVals xs xs) = (funcAndNaNFree x && funcAndNaNFreeAll xs)
    rw [deepValueEqual_self x, deepVals_self xs]
end

/-- The function `reflect.DeepEqual` holds between a value and itself exactly when the value
satisfies `funcAndNaNFree`. -/
theorem DeepEqual_self (a : GoAny) : DeepEqual a a = a.funcAndNaNFree := by
  rcases a with _ | v
  · rfl
  · show (if v.typeOf ≠ v.typeOf then false else deepValueEqual v v) = funcAndNaNFree v
    simp [deepValueEqual_self]

/-- C4, as amended: for every value `a` in which no non-nil function value and no NaN is
reachable through struct fields, array elements and interface values (what lies behind a
pointer, a slice or a map does not matter), `Equals(t, a, a)` records no failure: it calls
neither `t.Errorf` nor `t.Fatalf`. -/
theorem Equals_self_no_failure (a : GoAny) (h : a.funcAndNaNFree = true) :
    Equals a a = [Call.Helper] ∧ countErrorf (Equals a a) = 0 ∧
      countFatalf (Equals a a) = 0 := by
  have hd : DeepEqual a a = true := by
    rw [DeepEqual_self]
    exact h
  have hE : Equals a a = [Call.Helper] := by
    unfold Equals
    rw [hd]
    rfl
  rw [hE]
  exact ⟨rfl, rfl, rfl⟩

/-- Witness of C4 as amended: a struct with an integer and a pointer to a function. -/
theorem Equals_self_no_failure_witness :
    pairWithFuncPtr.funcAndNaNFree = true ∧
      (Equals pairWithFuncPtr pairWithFuncPtr = [Call.Helper] ∧
        countErrorf (Equals pairWithFuncPtr pairWithFuncPtr) = 0 ∧
        countFatalf (Equals pairWithFuncPtr pairWithFuncPtr) = 0) :=
  ⟨by decide, Equals_self_no_failure pairWithFuncPtr (by decide)⟩

/-- Counterexample to C4 as stated: a non-nil function value is not deeply equal to itself,
so `Equals(t, f, f)` calls `t.Errorf`. -/
theorem Equals_self_func_fails :
    countErrorf (Equals someFunc someFunc) = 1 ∧
      ¬ (countErrorf (Equals someFunc someFunc) = 0 ∧
          countFatalf (Equals someFunc someFunc) = 0) := by
  decide

/-- The search along two lists one after the other goes on in the second only when the
first is exhausted without a match or a panic. -/
theorem isList_append (target : ErrInfo) (cmp : Bool) (xs ys : List ErrInfo) :
    isList target cmp (xs ++ ys) =
      match isList target cmp xs with
      | some false => isList target cmp ys
      | r => r := by
  induction xs with
  | nil => rfl
  | cons i rest ih =>
    show (match isHere target cmp i with
        | some false => isList target cmp (rest ++ ys)
        | r => r) = _
    show _ = (match (match isHere target cmp i with
        | some false => isList target cmp rest
        | r => r) with
      | some false => isList target cmp ys
      | r => r)
    rcases h : isHere target cmp i with _ | b
    · rfl
    · cases b
      · simpa using ih
      · rfl

mutual
/-- The function `is` searches the wrap chain of the error from its first element on. -/
theorem is_eq_isList (target : ErrInfo) (cmp : Bool) :
    ∀ e : GoError, is target cmp e = isList target cmp (chain e)
  | .leaf i => by
    show isHere target cmp i = (match isHere target cmp i with
      | some false => some false
      | r => r)
    rcases isHere target cmp i with _ | b
    · rfl
    · cases b <;> rfl
  | .wrapNil i => by
    show isHere target cmp i = (match isHere target cmp i with
      | some false => some false
      | r => r)
    rcases isHere target cmp i with _ | b
    · rfl
    · cases b <;> rfl
  | .wrap i inner => by
    show (match isHere target cmp i with
      | some false => is target cmp inner
      | r => r) = (match isHere target cmp i with
      | some false => isList target cmp (chain inner)
      | r => r)
    rw [is_eq_isList target cmp inner]
  | .join i inners => by
    show (match isHere target cmp i with
      | some false => isAny target cmp inners
      | r => r) = (match isHere target cmp i with
      | some false => isList target cmp (chainAll inners)
      | r => r)
    rw [isAny_eq_isList target cmp inners]
/-- The loop `isAny` searches the wrap chains of the errors of the list in order. -/
theorem isAny_eq_isList (target : ErrInfo) (cmp : Bool) :
    ∀ es : ErrList, isAny target cmp es = isList target cmp (chainAll es)
  | .nil => rfl
  | .consNil tl => by
    show isAny target cmp tl = isList target cmp (chainAll tl)
    exact isAny_eq_isList target cmp tl
  | .cons e tl => by
    show (match is target cmp e with
      | some false => isAny target cmp tl
      | r => r) = isList target cmp (chain e ++ chainAll tl)
    rw [isList_append, is_eq_isList target cmp e, isAny_eq_isList target cmp tl]
end

/-- The search of `asList` along two lists one after the other. -/
theorem asList_append (xs ys : List ErrInfo) (slot : Val) :
    asList (xs ++ ys) slot =
      match asList xs slot with
      | (true, s) => (true, s)
      | (false, s) => asList ys s := by
  induction xs generalizing slot with
  | nil => rfl
  | cons i rest ih =>
    show (match asHere i slot with
        | (true, s) => (true, s)
        | (false, s) => asList (rest ++ ys) s) = _
    show _ = (match (match asHere i slot with
        | (true, s) => (true, s)
        | (false, s) => asList rest s) with
      | (true, s) => (true, s)
      | (false, s) => asList ys s)
    rcases h : asHere i slot with ⟨b, s⟩
    cases b
    · simpa using ih s
    · rfl

mutual
/-- The function `as` searches the wrap chain of the error from its first element on. -/
theorem as_eq_asList : ∀ (e : GoError) (slot : Val), as e slot = asList (chain e) slot
  | .leaf i, slot => by
    show asHere i slot = (match asHere i slot with
      | (true, s) => (true, s)
      | (false, s) => (false, s))
    rcases asHere i slot with ⟨b, s⟩
    cases b <;> rfl
  | .wrapNil i, slot => by
    show asHere i slot = (match asHere i slot with
      | (true, s) => (true, s)
      | (false, s) => (false, s))
    rcases asHere i slot with ⟨b, s⟩
    cases b <;> rfl
  | .wrap i inner, slot => by
    show (match asHere i slot with
      | (true, s) => (true, s)
      | (false, s) => as inner s) = (match asHere i slot with
      | (true, s) => (true, s)
      | (false, s) => asList (chain inner) s)
    rcases asHere i slot with ⟨b, s⟩
    cases b
    · exact as_eq_asList inner s
    · rfl
  | .join i inners, slot => by
    show (match asHere i slot with
      | (true, s) => (true, s)
      | (false, s) => asAny inners s) = (match asHere i slot with
      | (true, s) => (true, s)
      | (false, s) => asList (chainAll inners) s)
    rcases asHere i slot with ⟨b, s⟩
    cases b
    · exact asAny_eq_asList inners s
    · rfl
/-- The loop `asAny` searches the wrap chains of the errors of the list in order. -/
theorem asAny_eq_asList : ∀ (es : ErrList) (slot : Val), asAny es slot = asList (chainAll es) slot
  | .nil, _ => rfl
  | .consNil tl, slot => by
    show asAny tl slot = asList (chainAll tl) slot
    exact asAny_eq_asList tl slot
  | .cons e tl, slot => by
    show (match as e slot with
      | (true, s) => (true, s)
      | (false, s) => asAny tl s) = asList (chain e ++ chainAll tl) slot
    rw [asList_append, as_eq_asList e slot]
    rcases asList (chain e) slot with ⟨b, s⟩
    cases b
    · exact asAny_eq_asList tl s
    · rfl
end

/-- The wrap chain of an error starts with the error itself. -/
theorem chain_head (e : GoError) : ∃ rest, chain e = e.info :: rest := by
  cases e
  · exact ⟨[], rfl⟩
  · exact ⟨[], rfl⟩
  · exact ⟨_, rfl⟩
  · exact ⟨_, rfl⟩

/-- C5, as amended: for every non-nil error `e` whose concrete type is comparable and for
which `e == e` evaluates to true (no NaN and no function, slice or map compared inside it),
`IsError(t, e, e)` records no failure: it calls neither `t.Errorf` nor `t.Fatalf`. -/
theorem IsError_self_no_failure (e : GoError) (hc : e.typeOf.comparable = true)
    (hs : goEq e.info.dyn e.info.dyn = some true) :
    IsError (some e) (some e) = ⟨[Call.Helper], none⟩ ∧
      countErrorf (IsError (some e) (some e)).calls = 0 ∧
      countFatalf (IsError (some e) (some e)).calls = 0 := by
  have hh : isHere e.info e.typeOf.comparable e.info = some true := by
    simp [isHere, hc, ifaceEq, hs]
  have hI : Is (some e) (some e) = some true := by
    show is e.info e.typeOf.comparable e = some true
    rw [is_eq_isList]
    obtain ⟨rest, hr⟩ := chain_head e
    rw [hr]
    show (match isHere e.info e.typeOf.comparable e.info with
      | some false => isList e.info e.typeOf.comparable rest
      | r => r) = some true
    rw [hh]
  have hE : IsError (some e) (some e) = ⟨[Call.Helper], none⟩ := by
    simp [IsError, hI]
  rw [hE]
  exact ⟨rfl, rfl, rfl⟩

/-- Witness of C5 as amended: an error made by `errors.New`, as in
`TestIsError_successWhenErrorsAreDifferent`. -/
theorem IsError_self_no_failure_witness :
    (errorsNew 1 "some error").typeOf.comparable = true ∧
      goEq (errorsNew 1 "some error").info.dyn (errorsNew 1 "some error").info.dyn = some true ∧
      (IsError (some (errorsNew 1 "some error")) (some (errorsNew 1 "some error"))
          = ⟨[Call.Helper], none⟩ ∧
        countErrorf (IsError (some (errorsNew 1 "some error"))
          (some (errorsNew 1 "some error"))).calls = 0 ∧
        countFatalf (IsError (some (errorsNew 1 "some error"))
          (some (errorsNew 1 "some error"))).calls = 0) :=
  ⟨by decide, by decide,
    IsError_self_no_failure (errorsNew 1 "some error") (by decide) (by decide)⟩

/-- Counterexample to C5 as stated: the error `multiErr{"a"}` has a slice type, which is not
comparable; `errors.Is` then never compares it, and `IsError(t, e, e)` calls `t.Errorf`. -/
theorem IsError_self_uncomparable_fails :
    multiErrA.typeOf.comparable = false ∧
      countErrorf (IsError (some multiErrA) (some multiErrA)).calls = 1 ∧
      ¬ (countErrorf (IsError (some multiErrA) (some multiErrA)).calls = 0 ∧
          countFatalf (IsError (some multiErrA) (some multiErrA)).calls = 0) := by
  decide

/-- When one turn of the loop of `errors.is` ends without a panic, its result says whether
the error compares equal to the target or accepts it through its `Is` method. -/
theorem isHere_some (target e : ErrInfo) (b : Bool)
    (h : isHere target target.dyn.typeOf.comparable e = some b) :
    (comparesEqual e target || acceptsByIs e target) = b := by
  unfold isHere at h
  unfold comparesEqual acceptsByIs
  cases hc : target.dyn.typeOf.comparable
  · rw [hc] at h
    rcases hm : e.isM with _ | f
    · rw [hm] at h
      simpa using h
    · rw [hm] at h
      simpa using h
  · rw [hc] at h
    rcases hq : ifaceEq e.dyn target.dyn with _ | q
    · rw [hq] at h
      simp at h
    · rw [hq] at h
      cases q
      · rcases hm : e.isM with _ | f
        · rw [hm] at h
          simpa using h
        · rw [hm] at h
          simpa using h
      · simpa using h

/-- When the search of `errors.is` along a list ends without a panic, its result says
whether some error of the list matches the target. -/
theorem isList_some (target : ErrInfo) (xs : List ErrInfo) :
    ∀ b : Bool, isList target target.dyn.typeOf.comparable xs = some b →
      xs.any (fun i => comparesEqual i target || acceptsByIs i target) = b := by
  induction xs with
  | nil =>
    intro b h
    have h2 : some false = some b := h
    cases h2
    rfl
  | cons i rest ih =>
    intro b h
    have h2 : (match isHere target target.dyn.typeOf.comparable i with
      | some false => isList target target.dyn.typeOf.comparable rest
      | r => r) = some b := h
    rw [List.any_cons]
    rcases hi : isHere target target.dyn.typeOf.comparable i with _ | q
    · rw [hi] at h2
      cases h2
    · have hm := isHere_some target i q hi
      rw [hi] at h2
      cases q
      · have hr := ih b h2
        show ((comparesEqual i target || acceptsByIs i target) ||
          rest.any (fun i => comparesEqual i target || acceptsByIs i target)) = b
        rw [hm, hr]
        rfl
      · have hb : some true = some b := h2
        cases hb
        show ((comparesEqual i target || acceptsByIs i target) ||
          rest.any (fun i => comparesEqual i target || acceptsByIs i target)) = true
        rw [hm]
        rfl

/-- When `errors.Is` returns, its result says whether `got` or an error of its wrap chain
matches `want`. -/
theorem Is_some (got want : GoErr) (b : Bool) (h : Is got want = some b) :
    matchInChain got want = b := by
  rcases got with _ | e <;> rcases want with _ | w
  · have h2 : some true = some b := h
    cases h2
    rfl
  · have h2 : some false = some b := h
    cases h2
    rfl
  · have h2 : some false = some b := h
    cases h2
    rfl
  · have h2 : is w.info w.info.dyn.typeOf.comparable e = some b := h
    rw [is_eq_isList] at h2
    exact isList_some w.info (chain e) b h2

/-- C6, as amended: for all errors `got` and `want` for which `IsError(t, got, want)`
returns, that is for which no comparison that the search makes panics, `IsError` records no
failure exactly when `got` itself or some error of its wrap chain compares equal to `want`
or accepts `want` through its `Is` method; otherwise it calls `t.Errorf` exactly once and
never `t.Fatalf`. Matching is by `==` on the error values, not by message: two errors
returned by two calls of `errors.New` with the same text are reported as a failure. -/
theorem IsError_no_failure_iff_match (got want : GoErr)
    (hp : (IsError got want).panic = none) :
    ((IsError got want).calls = [Call.Helper] ↔ matchInChain got want = true) ∧
      (matchInChain got want = false →
        (IsError got want).calls =
            [Call.Helper,
              Call.Errorf "assert.IsError failed\nwant: %T(%v)\n got: %T(%v)"
                [Arg.err want, Arg.err want, Arg.err got, Arg.err got]] ∧
          countErrorf (IsError got want).calls = 1 ∧
          countFatalf (IsError got want).calls = 0) ∧
      (∀ (a b : Nat) (text : String), a ≠ b →
        countErrorf (IsError (some (errorsNew a text)) (some (errorsNew b text))).calls = 1) := by
  have hI : Is got want = some (matchInChain got want) := by
    rcases h : Is got want with _ | b
    · have hE : (IsError got want).panic = some "runtime error: comparing uncomparable type" := by
        unfold IsError
        rw [h]
      rw [hE] at hp
      cases hp
    · rw [Is_some got want b h]
  refine ⟨?_, ?_, ?_⟩
  · unfold IsError
    rw [hI]
    cases matchInChain got want <;> simp
  · intro hm
    unfold IsError
    rw [hI, hm]
    exact ⟨rfl, rfl, rfl⟩
  · intro a b text hab
    have hne : (a == b) = false := by simpa using hab
    have hq : ifaceEq (errorsNew a text).info.dyn (errorsNew b text).info.dyn
        = some (a == b) := by
      show (if tErrorStringPtr ≠ tErrorStringPtr then some false else some (a == b)) = _
      simp
    have : Is (some (errorsNew a text)) (some (errorsNew b text)) = some false := by
      show isHere (errorsNew b text).info true (errorsNew a text).info = some false
      unfold isHere
      rw [if_pos rfl, hq, hne]
      rfl
    unfold IsError
    rw [this]
    rfl

/-- Witness of C6 as amended: the two errors of `TestIsError_failsWhenErrorsAreDifferent`,
made by two calls of `errors.New("some error")`. -/
theorem IsError_no_failure_iff_match_witness :
    (IsError (some (errorsNew 1 "some error")) (some (errorsNew 2 "some error"))).panic = none ∧
      matchInChain (some (errorsNew 1 "some error")) (some (errorsNew 2 "some error")) = false ∧
      countErrorf
        (IsError (some (errorsNew 1 "some error")) (some (errorsNew 2 "some error"))).calls = 1 :=
  ⟨rfl, by decide,
    ((IsError_no_failure_iff_match (some (errorsNew 1 "some error"))
      (some (errorsNew 2 "some error")) rfl).2.1 (by decide)).2.1⟩

/-- Counterexample to C6 as stated: two errors created separately with the same message,
`codeErr("some error")` twice, are equal values of a comparable type, and `IsError` records
no failure for them. -/
theorem IsError_same_message_values_match :
    codeErrGot.info.msg = codeErrWant.info.msg ∧
      (IsError (some codeErrGot) (some codeErrWant)).calls = [Call.Helper] ∧
      countErrorf (IsError (some codeErrGot) (some codeErrWant)).calls = 0 ∧
      (IsError (some codeErrGot) (some codeErrWant)).panic = none :=
  ⟨by decide, rfl, by decide, rfl⟩

/-- The content of a variable after a typed write has the type of the variable. -/
theorem sameSlotType_typeOf (slot s : Val) (h : sameSlotType slot s = true) :
    s.typeOf = slot.typeOf := by
  unfold sameSlotType at h
  rw [Bool.and_eq_true] at h
  exact of_decide_eq_true h.1

/-- The content of a variable after a typed write is an interface value exactly when the
variable is of interface type. -/
theorem sameSlotType_kind (slot s : Val) (h : sameSlotType slot s = true) :
    (s.kind == Kind.Interface) = (slot.kind == Kind.Interface) := by
  unfold sameSlotType at h
  rw [Bool.and_eq_true] at h
  exact of_decide_eq_true h.2

/-- The content of a variable is a possible content of that variable. -/
theorem sameSlotType_self (slot : Val) : sameSlotType slot slot = true := by
  simp [sameSlotType]

/-- Whether an error type is assignable to a variable depends on the type of the variable
only, not on what it holds. -/
theorem assignableTo_sameSlotType (t : GoType) (slot s : Val)
    (h : sameSlotType slot s = true) : assignableTo t s = assignableTo t slot := by
  unfold assignableTo
  rw [sameSlotType_typeOf slot s h, sameSlotType_kind slot s h]

/-- What `Set` leaves in a variable of interface type: an interface value of the type of the
variable that holds the error. -/
theorem store_interface (slot s d : Val) (h : sameSlotType slot s = true)
    (hk : slot.kind = Kind.Interface) : store s d = .iface slot.typeOf d := by
  have ht := sameSlotType_typeOf slot s h
  have hkk := sameSlotType_kind slot s h
  rw [hk] at hkk
  cases s with
  | nilIface t =>
    show Val.iface t d = _
    rw [← ht]
    rfl
  | iface t x =>
    show Val.iface t d = _
    rw [← ht]
    rfl
  | int t k n => cases k <;> simp [Val.kind, IntKind.toKind] at hkk
  | uint t k n => cases k <;> simp [Val.kind, UintKind.toKind] at hkk
  | float t w b => cases w <;> simp [Val.kind] at hkk
  | complex t w a b => cases w <;> simp [Val.kind] at hkk
  | _ => simp [Val.kind] at hkk

/-- What `Set` leaves in a variable of a type that is not an interface type: the error
value itself. -/
theorem store_concrete (slot s d : Val) (h : sameSlotType slot s = true)
    (hk : slot.kind ≠ Kind.Interface) : store s d = d := by
  have hkk := sameSlotType_kind slot s h
  have hf : (slot.kind == Kind.Interface) = false := by simpa using hk
  rw [hf] at hkk
  cases s with
  | nilIface t => simp [Val.kind] at hkk
  | iface t x => simp [Val.kind] at hkk
  | _ => rfl

/-- The search of `errors.as` along a list ends on the first error whose type is assignable
to the variable and stores it there, when the `As` methods of the errors before it reject
the target. -/
theorem asList_first (slot : Val) (i : ErrInfo) (xs : List ErrInfo) :
    ∀ s : Val, sameSlotType slot s = true →
      xs.find? (fun j => assignableTo j.dyn.typeOf slot) = some i →
      asRejects (xs.takeWhile (fun j => !assignableTo j.dyn.typeOf slot)) s = true →
      asWritesTyped slot (xs.takeWhile (fun j => !assignableTo j.dyn.typeOf slot)) s = true →
      ∃ s2, sameSlotType slot s2 = true ∧ asList xs s = (true, store s2 i.dyn) := by
  induction xs with
  | nil =>
    intro s _ hfirst
    simp at hfirst
  | cons j rest ih =>
    intro s hs hfirst hrej htyped
    show ∃ s2, sameSlotType slot s2 = true ∧ (match asHere j s with
      | (true, s3) => (true, s3)
      | (false, s3) => asList rest s3) = (true, store s2 i.dyn)
    cases hj : assignableTo j.dyn.typeOf slot
    · have hjs : assignableTo j.dyn.typeOf s = false := by
        rw [assignableTo_sameSlotType _ slot s hs, hj]
      have hrest : rest.find? (fun j => assignableTo j.dyn.typeOf slot) = some i := by
        simpa [List.find?, hj] using hfirst
      have htw : (j :: rest).takeWhile (fun j => !assignableTo j.dyn.typeOf slot)
          = j :: rest.takeWhile (fun j => !assignableTo j.dyn.typeOf slot) := by
        simp [List.takeWhile, hj]
      rw [htw] at hrej htyped
      rcases hm : j.asM with _ | f
      · have hh : asHere j s = (false, s) := by
          unfold asHere
          rw [hjs, hm]
          rfl
        have hrej2 : asRejects (rest.takeWhile (fun j => !assignableTo j.dyn.typeOf slot)) s
            = true := by
          unfold asRejects at hrej
          rw [hm] at hrej
          exact hrej
        have htyped2 : asWritesTyped slot
            (rest.takeWhile (fun j => !assignableTo j.dyn.typeOf slot)) s = true := by
          unfold asWritesTyped at htyped
          rw [hm] at htyped
          exact htyped
        rw [hh]
        exact ih s hs hrest hrej2 htyped2
      · have hrej2 : (!(f s).2 &&
            asRejects (rest.takeWhile (fun j => !assignableTo j.dyn.typeOf slot)) (f s).1)
            = true := by
          unfold asRejects at hrej
          rw [hm] at hrej
          exact hrej
        rw [Bool.and_eq_true] at hrej2
        have hb : (f s).2 = false := by simpa using hrej2.1
        have htyped2 : sameSlotType slot (f s).1 = true ∧ asWritesTyped slot
            (rest.takeWhile (fun j => !assignableTo j.dyn.typeOf slot)) (f s).1 = true := by
          unfold asWritesTyped at htyped
          rw [hm] at htyped
          simpa [hb] using htyped
        have hh : asHere j s = (false, (f s).1) := by
          unfold asHere
          rw [hjs, hm]
          show ((f s).2, (f s).1) = (false, (f s).1)
          rw [hb]
        rw [hh]
        exact ih (f s).1 htyped2.1 hrest hrej2.2 htyped2.2
    · have hjs : assignableTo j.dyn.typeOf s = true := by
        rw [assignableTo_sameSlotType _ slot s hs, hj]
      have hji : j = i := by simpa [List.find?, hj] using hfirst
      have hh : asHere j s = (true, store s j.dyn) := by
        unfold asHere
        rw [hjs]
        rfl
      rw [hh, hji]
      exact ⟨s, hs, rfl⟩

/-- The search of `errors.as` along a list ends on the first `As` method that accepts the
target, when that method is asked before any error whose type is assignable to the
variable is reached; the variable then holds what the method left there. -/
theorem asList_accepted (slot : Val) (xs : List ErrInfo) :
    ∀ s : Val, sameSlotType slot s = true →
      asRejects (xs.takeWhile (fun j => !assignableTo j.dyn.typeOf slot)) s = false →
      asWritesTyped slot (xs.takeWhile (fun j => !assignableTo j.dyn.typeOf slot)) s = true →
      asList xs s
        = (true, asLeaves (xs.takeWhile (fun j => !assignableTo j.dyn.typeOf slot)) s) := by
  induction xs with
  | nil =>
    intro s _ hrej
    have h2 : true = false := hrej
    cases h2
  | cons j rest ih =>
    intro s hs hrej htyped
    show (match asHere j s with
      | (true, s3) => (true, s3)
      | (false, s3) => asList rest s3) = _
    cases hj : assignableTo j.dyn.typeOf slot
    · have hjs : assignableTo j.dyn.typeOf s = false := by
        rw [assignableTo_sameSlotType _ slot s hs, hj]
      have htw : (j :: rest).takeWhile (fun j => !assignableTo j.dyn.typeOf slot)
          = j :: rest.takeWhile (fun j => !assignableTo j.dyn.typeOf slot) := by
        simp [List.takeWhile, hj]
      rw [htw] at hrej htyped ⊢
      rcases hm : j.asM with _ | f
      · have hh : asHere j s = (false, s) := by
          unfold asHere
          rw [hjs, hm]
          rfl
        have hrej2 : asRejects (rest.takeWhile (fun j => !assignableTo j.dyn.typeOf slot)) s
            = false := by
          unfold asRejects at hrej
          rw [hm] at hrej
          exact hrej
        have htyped2 : asWritesTyped slot
            (rest.takeWhile (fun j => !assignableTo j.dyn.typeOf slot)) s = true := by
          unfold asWritesTyped at htyped
          rw [hm] at htyped
          exact htyped
        have hl : asLeaves (j :: rest.takeWhile (fun j => !assignableTo j.dyn.typeOf slot)) s
            = asLeaves (rest.takeWhile (fun j => !assignableTo j.dyn.typeOf slot)) s := by
          show (match j.asM with
            | none => asLeaves (rest.takeWhile (fun j => !assignableTo j.dyn.typeOf slot)) s
            | some f => if (f s).2 then (f s).1
              else asLeaves (rest.takeWhile (fun j => !assignableTo j.dyn.typeOf slot))
                (f s).1) = _
          rw [hm]
        rw [hh, hl]
        exact ih s hs hrej2 htyped2
      · have hl : asLeaves (j :: rest.takeWhile (fun j => !assignableTo j.dyn.typeOf slot)) s
            = (if (f s).2 then (f s).1
              else asLeaves (rest.takeWhile (fun j => !assignableTo j.dyn.typeOf slot))
                (f s).1) := by
          show (match j.asM with
            | none => asLeaves (rest.takeWhile (fun j => !assignableTo j.dyn.typeOf slot)) s
            | some f => if (f s).2 then (f s).1
              else asLeaves (rest.takeWhile (fun j => !assignableTo j.dyn.typeOf slot))
                (f s).1) = _
          rw [hm]
        have hh : asHere j s = ((f s).2, (f s).1) := by
          unfold asHere
          rw [hjs, hm]
          rfl
        rw [hh, hl]
        cases hb : (f s).2
        · have hrej2 : asRejects (rest.takeWhile (fun j => !assignableTo j.dyn.typeOf slot))
              (f s).1 = false := by
            unfold asRejects at hrej
            rw [hm] at hrej
            simpa [hb] using hrej
          have htyped2 : sameSlotType slot (f s).1 = true ∧ asWritesTyped slot
              (rest.takeWhile (fun j => !assignableTo j.dyn.typeOf slot)) (f s).1 = true := by
            unfold asWritesTyped at htyped
            rw [hm] at htyped
            simpa [hb] using htyped
          simpa using ih (f s).1 htyped2.1 hrej2 htyped2.2
        · simp
    · have htw : (j :: rest).takeWhile (fun j => !assignableTo j.dyn.typeOf slot) = [] := by
        simp [List.takeWhile, hj]
      rw [htw] at hrej
      have h2 : true = false := hrej
      cases h2

/-- C7, as amended: for every non-nil error `got` and every valid target (a non-nil pointer
to a variable `slot` of interface type or of a type that implements `error`) such that some
error of the wrap chain of `got` is assignable to the type of the variable,
`AsError(t, got, target)` returns and calls neither `t.Errorf` nor `t.Fatalf`; it stores the
first such error in `*target` (as the value of the variable itself, or held by it when the
variable is of interface type), unless an error visited before it has an `As` method that
accepts the target: then `*target` holds what the first such method left there. The
hypothesis `htyped` is the typing of the program: what an `As` method stores in the variable
has the type of the variable. -/
theorem AsError_stores_first_assignable (e : GoError) (t : GoType) (addr : Nat)
    (slot : Val) (i : ErrInfo)
    (hvalid : slot.kind = Kind.Interface ∨ implementsError slot.typeOf = true)
    (hfirst : (chain e).find? (fun j => assignableTo j.dyn.typeOf slot) = some i)
    (htyped : asWritesTyped slot
      ((chain e).takeWhile (fun j => !assignableTo j.dyn.typeOf slot)) slot = true) :
    (AsError (some e) (some (.ptr t addr slot))).calls = [Call.Helper] ∧
      (AsError (some e) (some (.ptr t addr slot))).panic = none ∧
      countErrorf (AsError (some e) (some (.ptr t addr slot))).calls = 0 ∧
      countFatalf (AsError (some e) (some (.ptr t addr slot))).calls = 0 ∧
      (asRejects ((chain e).takeWhile (fun j => !assignableTo j.dyn.typeOf slot)) slot = true →
        (slot.kind = Kind.Interface →
          (AsError (some e) (some (.ptr t addr slot))).want
            = some (.ptr t addr (.iface slot.typeOf i.dyn))) ∧
        (slot.kind ≠ Kind.Interface →
          (AsError (some e) (some (.ptr t addr slot))).want = some (.ptr t addr i.dyn))) ∧
      (asRejects ((chain e).takeWhile (fun j => !assignableTo j.dyn.typeOf slot)) slot = false →
        (AsError (some e) (some (.ptr t addr slot))).want
          = some (.ptr t addr
              (asLeaves ((chain e).takeWhile (fun j => !assignableTo j.dyn.typeOf slot))
                slot))) := by
  have hv : (slot.kind != Kind.Interface && !implementsError slot.typeOf) = false := by
    rcases hvalid with h | h <;> simp [h]
  have hA : As (some e) (some (.ptr t addr slot))
      = Except.ok ((as e slot).1, some (Val.ptr t addr (as e slot).2)) := by
    show (if (slot.kind != Kind.Interface && !implementsError slot.typeOf) = true then
        (Except.error "errors: *target must be interface or implement error" :
          Except String (Bool × GoAny))
      else Except.ok ((as e slot).1, some (Val.ptr t addr (as e slot).2))) = _
    rw [hv]
    rfl
  have hfound : ∃ s2, as e slot = (true, s2) ∧
      (asRejects ((chain e).takeWhile (fun j => !assignableTo j.dyn.typeOf slot)) slot = true →
        ∃ s3, sameSlotType slot s3 = true ∧ s2 = store s3 i.dyn) ∧
      (asRejects ((chain e).takeWhile (fun j => !assignableTo j.dyn.typeOf slot)) slot = false →
        s2 = asLeaves ((chain e).takeWhile (fun j => !assignableTo j.dyn.typeOf slot))
          slot) := by
    rw [as_eq_asList]
    cases hr : asRejects ((chain e).takeWhile (fun j => !assignableTo j.dyn.typeOf slot)) slot
    · have h := asList_accepted slot (chain e) slot (sameSlotType_self slot) hr htyped
      exact ⟨_, h, fun hc => Bool.noConfusion hc, fun _ => rfl⟩
    · obtain ⟨s3, hs3, h⟩ :=
        asList_first slot i (chain e) slot (sameSlotType_self slot) hfirst hr htyped
      exact ⟨_, h, fun _ => ⟨s3, hs3, rfl⟩, fun hc => Bool.noConfusion hc⟩
  obtain ⟨s2, has, hrej, hacc⟩ := hfound
  have hE : AsError (some e) (some (.ptr t addr slot))
      = ⟨[Call.Helper], none, some (.ptr t addr s2)⟩ := by
    unfold AsError
    rw [hA, has]
  rw [hE]
  refine ⟨rfl, rfl, rfl, rfl, fun hr => ⟨fun hk => ?_, fun hk => ?_⟩, fun hr => ?_⟩
  · obtain ⟨s3, hs3, h⟩ := hrej hr
    show some (Val.ptr t addr s2) = _
    rw [h, store_interface slot s3 i.dyn hs3 hk]
  · obtain ⟨s3, hs3, h⟩ := hrej hr
    show some (Val.ptr t addr s2) = _
    rw [h, store_concrete slot s3 i.dyn hs3 hk]
  · show some (Val.ptr t addr s2) = _
    rw [hacc hr]

/-- Witness of C7 as amended: `TestAsError_success`, a `*fs.PathError` searched with the
address of a nil `*fs.PathError` variable; after the call the variable holds the error. -/
theorem AsError_stores_first_assignable_witness :
    implementsError (Val.nilPtr tPathErrorPtr).typeOf = true ∧
      (chain readPathError).find?
          (fun j => assignableTo j.dyn.typeOf (.nilPtr tPathErrorPtr)) = some readPathError.info ∧
      (AsError (some readPathError) addrOfNilPathErrorPtr).calls = [Call.Helper] ∧
      (AsError (some readPathError) addrOfNilPathErrorPtr).want
        = some (.ptr tPathErrorPtrPtr 49152 (pathErrorAt 12288 "read")) :=
  ⟨by decide, rfl,
    (AsError_stores_first_assignable readPathError tPathErrorPtrPtr 49152
      (.nilPtr tPathErrorPtr) readPathError.info (Or.inr (by decide)) rfl (by decide)).1,
    ((AsError_stores_first_assignable readPathError tPathErrorPtrPtr 49152
      (.nilPtr tPathErrorPtr) readPathError.info (Or.inr (by decide)) rfl
      (by decide)).2.2.2.2.1 (by decide)).2 (by decide)⟩

/-- Counterexample to C7 as stated: `redirect{readPathError}` wraps a `*fs.PathError`, the
first error of its chain that is assignable to a `*fs.PathError` variable, but its own `As`
method is asked before and stores another `*fs.PathError`: after `AsError` the variable
does not hold the wrapped error. -/
theorem AsError_custom_As_decides :
    (chain redirectError).find? (fun j => assignableTo j.dyn.typeOf (.nilPtr tPathErrorPtr))
        = some readPathError.info ∧
      readPathError.info.dyn = pathErrorAt 12288 "read" ∧
      (AsError (some redirectError) addrOfNilPathErrorPtr).want
        = some (.ptr tPathErrorPtrPtr 49152 (pathErrorAt 16384 "stat")) ∧
      (AsError (some redirectError) addrOfNilPathErrorPtr).want
        ≠ some (.ptr tPathErrorPtrPtr 49152 (pathErrorAt 12288 "read")) := by
  refine ⟨rfl, rfl, rfl, ?_⟩
  rw [show (AsError (some redirectError) addrOfNilPathErrorPtr).want
      = some (.ptr tPathErrorPtrPtr 49152 (pathErrorAt 16384 "stat")) from rfl]
  simp [pathErrorAt]

/-- C9, as amended: for every non-nil error `got` and every `want` that holds a value other
than a non-nil pointer (a value that is no pointer, or a nil pointer), `AsError(t, got,
want)` panics with the message `errors: target must be a non-nil pointer` after its call of
`t.Helper`, and records no failure; for the untyped nil the panic message is
`errors: target cannot be nil`, and no failure is recorded either. -/
theorem AsError_not_a_pointer_panics (e : GoError) (v : Val)
    (h : isNonNilPointer (some v) = false) :
    (AsError (some e) (some v)
        = ⟨[Call.Helper], some "errors: target must be a non-nil pointer", some v⟩ ∧
      countErrorf (AsError (some e) (some v)).calls = 0 ∧
      countFatalf (AsError (some e) (some v)).calls = 0) ∧
    (AsError (some e) none = ⟨[Call.Helper], some "errors: target cannot be nil", none⟩ ∧
      countErrorf (AsError (some e) none).calls = 0 ∧
      countFatalf (AsError (some e) none).calls = 0) := by
  refine ⟨?_, rfl, rfl, rfl⟩
  cases v with
  | ptr t a s => simp [isNonNilPointer] at h
  | _ => exact ⟨rfl, rfl, rfl⟩

/-- Witness of C9 as amended: `TestAsError_failWhenTargetIsNotAPointer`, where the target is
a nil `*os.PathError` and the error is `io.EOF`. -/
theorem AsError_not_a_pointer_panics_witness :
    isNonNilPointer nilPathErrorPtr = false ∧
      (AsError (some ioEOF) nilPathErrorPtr).panic
        = some "errors: target must be a non-nil pointer" ∧
      countErrorf (AsError (some ioEOF) nilPathErrorPtr).calls = 0 :=
  ⟨by decide,
    congrArg AsOutcome.panic
      (AsError_not_a_pointer_panics ioEOF (.nilPtr tPathErrorPtr) (by decide)).1.1,
    (AsError_not_a_pointer_panics ioEOF (.nilPtr tPathErrorPtr) (by decide)).1.2.1⟩

/-- Counterexample to C9 as stated: with the untyped nil as `want`, `AsError(t, io.EOF, nil)`
panics with the message `errors: target cannot be nil`, not with the message of the
claim. -/
theorem AsError_nil_target_other_message :
    isNonNilPointer none = false ∧
      (AsError (some ioEOF) none).panic = some "errors: target cannot be nil" ∧
      (AsError (some ioEOF) none).panic ≠ some "errors: target must be a non-nil pointer" := by
  decide

/-- C10, as amended: for every non-nil error `got` and every non-nil pointer `want` to a
variable whose type is neither an interface type nor a type that implements `error`,
`AsError(t, got, want)` panics with the message
`errors: *target must be interface or implement error` after its call of `t.Helper`, and
records no failure. -/
theorem AsError_wrong_target_type_panics (e : GoError) (t : GoType) (addr : Nat) (slot : Val)
    (hk : slot.kind ≠ Kind.Interface) (hi : implementsError slot.typeOf = false) :
    AsError (some e) (some (.ptr t addr slot))
        = ⟨[Call.Helper], some "errors: *target must be interface or implement error",
            some (.ptr t addr slot)⟩ ∧
      countErrorf (AsError (some e) (some (.ptr t addr slot))).calls = 0 ∧
      countFatalf (AsError (some e) (some (.ptr t addr slot))).calls = 0 := by
  have hv : (slot.kind != Kind.Interface && !implementsError slot.typeOf) = true := by
    simp [hk, hi]
  have hA : As (some e) (some (.ptr t addr slot))
      = .error "errors: *target must be interface or implement error" := by
    show (if (slot.kind != Kind.Interface && !implementsError slot.typeOf) = true then
        (Except.error "errors: *target must be interface or implement error" :
          Except String (Bool × GoAny))
      else Except.ok ((as e slot).1, some (Val.ptr t addr (as e slot).2))) = _
    rw [hv]
    rfl
  have hE : AsError (some e) (some (.ptr t addr slot))
      = ⟨[Call.Helper], some "errors: *target must be interface or implement error",
          some (.ptr t addr slot)⟩ := by
    unfold AsError
    rw [hA]
  rw [hE]
  exact ⟨rfl, rfl, rfl⟩

/-- Witness of C10 as amended: `TestAsError_failWhenTargetIsIncorretType`, where the target
is the address of an `os.PathError` struct and the error is `io.EOF`. -/
theorem AsError_wrong_target_type_panics_witness :
    zeroPathError.kind ≠ Kind.Interface ∧ implementsError zeroPathError.typeOf = false ∧
      (AsError (some ioEOF) addrOfPathError
          = ⟨[Call.Helper], some "errors: *target must be interface or implement error",
              addrOfPathError⟩ ∧
        countErrorf (AsError (some ioEOF) addrOfPathError).calls = 0 ∧
        countFatalf (AsError (some ioEOF) addrOfPathError).calls = 0) :=
  ⟨by decide, by decide,
    AsError_wrong_target_type_panics ioEOF tPathErrorPtr 53248 zeroPathError
      (by decide) (by decide)⟩

/-- Counterexample to C10 as stated: with the nil error as `got`, `errors.As` returns false
before it looks at the target, so `AsError(t, nil, &target)` with `target` an `os.PathError`
struct does not panic and calls `t.Errorf`. -/
theorem AsError_nil_error_wrong_target_reports :
    (AsError none addrOfPathError).panic = none ∧
      (AsError none addrOfPathError).calls =
        [Call.Helper,
          Call.Errorf "assert.AsError failed\nwant: %v\n got: %T"
            [Arg.typ tPathError, Arg.err none]] ∧
      countErrorf (AsError none addrOfPathError).calls = 1 :=
  ⟨rfl, rfl, by decide⟩

/-- The message of the failure of `Equals`: the format of `Equals` with its four operands,
where `%v` renders the operands as `x` and `y`. -/
theorem sprintf_Equals (got want : Arg) (x y : String) (hw : fmtV want = some x)
    (hg : fmtV got = some y) :
    sprintf "assert.Equals failed\nwant: %T(%v)\n got: %T(%v)" [want, want, got, got]
      = some ("assert.Equals failed\nwant: " ++ fmtT want ++ "(" ++ x ++ ")\n got: "
          ++ fmtT got ++ "(" ++ y ++ ")") := by
  have hl : "assert.Equals failed\nwant: %T(%v)\n got: %T(%v)".toList =
      ['a', 's', 's', 'e', 'r', 't', '.', 'E', 'q', 'u', 'a', 'l', 's', ' ', 'f', 'a', 'i',
        'l', 'e', 'd', '\n', 'w', 'a', 'n', 't', ':', ' ', '%', 'T', '(', '%', 'v', ')', '\n',
        ' ', 'g', 'o', 't', ':', ' ', '%', 'T', '(', '%', 'v', ')'] := rfl
  rw [sprintf, hl]
  simp only [sprintfChars, hw, hg, Option.some.injEq]
  apply String.ext
  simp [String.data_append, String.singleton]

/-- C11: whenever `Equals(t, got, want)` reports a failure, it does so by one call of
`t.Errorf` whose operands are `want, want, got, got` in this order, so that the message is
`assert.Equals failed`, then the line `want: ` with the type and the value of the third
argument, then the line ` got: ` with the type and the value of the second argument (`x` and
`y` are what `%v` prints for the two values). -/
theorem Equals_failure_message (got want : GoAny) (hf : countErrorf (Equals got want) ≠ 0) :
    Equals got want =
        [Call.Helper,
          Call.Errorf "assert.Equals failed\nwant: %T(%v)\n got: %T(%v)"
            [Arg.val want, Arg.val want, Arg.val got, Arg.val got]] ∧
      ∀ x y : String, fmtV (Arg.val want) = some x → fmtV (Arg.val got) = some y →
        (Equals got want).map Call.message =
          [none, some ("assert.Equals failed\nwant: " ++ fmtT (Arg.val want) ++ "(" ++ x
            ++ ")\n got: " ++ fmtT (Arg.val got) ++ "(" ++ y ++ ")")] := by
  have hE : Equals got want =
      [Call.Helper,
        Call.Errorf "assert.Equals failed\nwant: %T(%v)\n got: %T(%v)"
          [Arg.val want, Arg.val want, Arg.val got, Arg.val got]] := by
    cases hd : DeepEqual got want
    · simp [Equals, hd]
    · simp [Equals, hd, countErrorf, Call.isErrorf] at hf
  refine ⟨hE, fun x y hw hg => ?_⟩
  rw [hE]
  simp [Call.message, sprintf_Equals (Arg.val got) (Arg.val want) x y hw hg]

/-- Witness of C11: `Equals(t, 42, 24)`, as in `TestEquals_failsWhenValuesAreDifferent`. -/
theorem Equals_failure_message_witness :
    countErrorf (Equals fortyTwo twentyFour) ≠ 0 ∧
      (Equals fortyTwo twentyFour).map Call.message =
        [none, some "assert.Equals failed\nwant: int(24)\n got: int(42)"] :=
  ⟨by decide, (Equals_failure_message fortyTwo twentyFour (by decide)).2 "24" "42" rfl rfl⟩

/-- The message of the failure of `Nil`: the format of `Nil` with its operand, which `%#v`
renders as `x`. -/
theorem sprintf_Nil (v : Arg) (x : String) (hv : fmtSharpV v = some x) :
    sprintf "assert.Nil failed\nwant: nil\n got: %#v" [v]
      = some ("assert.Nil failed\nwant: nil\n got: " ++ x) := by
  have hl : "assert.Nil failed\nwant: nil\n got: %#v".toList =
      ['a', 's', 's', 'e', 'r', 't', '.', 'N', 'i', 'l', ' ', 'f', 'a', 'i', 'l', 'e', 'd',
        '\n', 'w', 'a', 'n', 't', ':', ' ', 'n', 'i', 'l', '\n', ' ', 'g', 'o', 't', ':', ' ',
        '%', '#', 'v'] := rfl
  rw [sprintf, hl]
  simp only [sprintfChars, hv, Option.some.injEq]
  apply String.ext
  simp [String.data_append, String.singleton]

/-- C12, as amended: whenever `Nil(t, v)` reports a failure, it does so by one call of
`t.Errorf` with the format `assert.Nil failed\nwant: nil\n got: %#v` and the operand `v`,
so that the got line is the Go-syntax representation of `v` (`x`, what `%#v` prints for
`v`), without the name of its type in front and without parentheses. -/
theorem Nil_failure_message (v : GoAny) (hf : countErrorf (Nil v) ≠ 0) :
    Nil v = [Call.Helper, Call.Errorf "assert.Nil failed\nwant: nil\n got: %#v" [Arg.val v]] ∧
      ∀ x : String, fmtSharpV (Arg.val v) = some x →
        (Nil v).map Call.message = [none, some ("assert.Nil failed\nwant: nil\n got: " ++ x)] := by
  have hN : Nil v =
      [Call.Helper, Call.Errorf "assert.Nil failed\nwant: nil\n got: %#v" [Arg.val v]] := by
    cases hd : isNil v
    · simp [Nil, hd]
    · simp [Nil, hd, countErrorf, Call.isErrorf] at hf
  refine ⟨hN, fun x hv => ?_⟩
  rw [hN]
  simp [Call.message, sprintf_Nil (Arg.val v) x hv]

/-- Witness of C12 as amended: `Nil(t, "abc")`, as in `TestNil_failsWithNotNil`; the got line
is the quoted string. -/
theorem Nil_failure_message_witness :
    countErrorf (Nil abcString) ≠ 0 ∧
      (Nil abcString).map Call.message =
        [none, some "assert.Nil failed\nwant: nil\n got: \"abc\""] :=
  ⟨by decide, (Nil_failure_message abcString (by decide)).2 "\"abc\"" rfl⟩

/-- Counterexample to C12 as stated: for the string `"abc"` the recorded message ends with
the quoted string, not with `string(abc)`. -/
theorem Nil_message_is_not_type_and_value :
    countErrorf (Nil abcString) = 1 ∧
      (Nil abcString).map Call.message
        = [none, some "assert.Nil failed\nwant: nil\n got: \"abc\""] ∧
      (Nil abcString).map Call.message
        ≠ [none, some "assert.Nil failed\nwant: nil\n got: string(abc)"] := by
  decide

/-- The message of the failure of `AsError`: the format of `AsError` with a type and an
error as operands. -/
theorem sprintf_AsError (typ : GoType) (got : GoErr) :
    sprintf "assert.AsError failed\nwant: %v\n got: %T" [Arg.typ typ, Arg.err got]
      = some ("assert.AsError failed\nwant: " ++ typ.name ++ "\n got: "
          ++ fmtT (Arg.err got)) := by
  have hl : "assert.AsError failed\nwant: %v\n got: %T".toList =
      ['a', 's', 's', 'e', 'r', 't', '.', 'A', 's', 'E', 'r', 'r', 'o', 'r', ' ', 'f', 'a',
        'i', 'l', 'e', 'd', '\n', 'w', 'a', 'n', 't', ':', ' ', '%', 'v', '\n', ' ', 'g', 'o',
        't', ':', ' ', '%', 'T'] := rfl
  rw [sprintf, hl]
  simp only [sprintfChars, fmtV, Option.some.injEq]
  apply String.ext
  simp [String.data_append, String.singleton]

/-- The search of `errors.as` along a list fails when no error of the list is assignable to
the variable and every `As` method rejects the target; the variable then holds a value of
its type. -/
theorem asList_none (slot : Val) (xs : List ErrInfo) :
    ∀ s : Val, sameSlotType slot s = true →
      (∀ j ∈ xs, assignableTo j.dyn.typeOf slot = false) →
      asRejects xs s = true → asWritesTyped slot xs s = true →
      ∃ s2, sameSlotType slot s2 = true ∧ asList xs s = (false, s2) := by
  induction xs with
  | nil =>
    intro s hs _ _ _
    exact ⟨s, hs, rfl⟩
  | cons j rest ih =>
    intro s hs hnone hrej htyped
    show ∃ s2, sameSlotType slot s2 = true ∧ (match asHere j s with
      | (true, s3) => (true, s3)
      | (false, s3) => asList rest s3) = (false, s2)
    have hjs : assignableTo j.dyn.typeOf s = false := by
      rw [assignableTo_sameSlotType _ slot s hs]
      exact hnone j (List.mem_cons_self j rest)
    have hnone2 : ∀ k ∈ rest, assignableTo k.dyn.typeOf slot = false :=
      fun k hk => hnone k (List.mem_cons_of_mem j hk)
    rcases hm : j.asM with _ | f
    · have hh : asHere j s = (false, s) := by
        unfold asHere
        rw [hjs, hm]
        rfl
      have hrej2 : asRejects rest s = true := by
        unfold asRejects at hrej
        rw [hm] at hrej
        exact hrej
      have htyped2 : asWritesTyped slot rest s = true := by
        unfold asWritesTyped at htyped
        rw [hm] at htyped
        exact htyped
      rw [hh]
      exact ih s hs hnone2 hrej2 htyped2
    · have hrej2 : (!(f s).2 && asRejects rest (f s).1) = true := by
        unfold asRejects at hrej
        rw [hm] at hrej
        exact hrej
      rw [Bool.and_eq_true] at hrej2
      have hb : (f s).2 = false := by simpa using hrej2.1
      have htyped2 : sameSlotType slot (f s).1 = true ∧ asWritesTyped slot rest (f s).1 = true := by
        unfold asWritesTyped at htyped
        rw [hm] at htyped
        simpa [hb] using htyped
      have hh : asHere j s = (false, (f s).1) := by
        unfold asHere
        rw [hjs, hm]
        show ((f s).2, (f s).1) = (false, (f s).1)
        rw [hb]
      rw [hh]
      exact ih (f s).1 htyped2.1 hnone2 hrej2.2 htyped2.2

/-- C13, as amended: for every non-nil error `got` and every valid target (a non-nil pointer
to a variable `slot` of interface type or of a type that implements `error`) such that no
error of the wrap chain of `got` is assignable to the type of the variable,
`AsError(t, got, target)` returns without a call of `t.Fatalf`, and it calls `t.Errorf`
exactly once, with the message `assert.AsError failed`, then `want: ` and the type of the
variable the target points to (the type of the target with one indirection removed), then
` got: ` and the run-time type of `got`, unless an error of the chain has an `As` method
that accepts the target: then it calls `t.Errorf` not at all. The hypothesis `htyped` is the
typing of the program: what an `As` method stores in the variable has the type of the
variable. -/
theorem AsError_failure_message (e : GoError) (t : GoType) (addr : Nat) (slot : Val)
    (hvalid : slot.kind = Kind.Interface ∨ implementsError slot.typeOf = true)
    (hnone : (chain e).all (fun j => !assignableTo j.dyn.typeOf slot) = true)
    (htyped : asWritesTyped slot (chain e) slot = true) :
    (AsError (some e) (some (.ptr t addr slot))).panic = none ∧
      countFatalf (AsError (some e) (some (.ptr t addr slot))).calls = 0 ∧
      (asRejects (chain e) slot = true →
        (AsError (some e) (some (.ptr t addr slot))).calls
            = [Call.Helper,
                Call.Errorf "assert.AsError failed\nwant: %v\n got: %T"
                  [Arg.typ slot.typeOf, Arg.err (some e)]] ∧
          (AsError (some e) (some (.ptr t addr slot))).calls.map Call.message
            = [none, some ("assert.AsError failed\nwant: " ++ slot.typeOf.name ++ "\n got: "
                ++ e.typeOf.name)] ∧
          countErrorf (AsError (some e) (some (.ptr t addr slot))).calls = 1) ∧
      (asRejects (chain e) slot = false →
        (AsError (some e) (some (.ptr t addr slot))).calls = [Call.Helper] ∧
          countErrorf (AsError (some e) (some (.ptr t addr slot))).calls = 0) := by
  have hv : (slot.kind != Kind.Interface && !implementsError slot.typeOf) = false := by
    rcases hvalid with h | h <;> simp [h]
  have hnone2 : ∀ j ∈ chain e, assignableTo j.dyn.typeOf slot = false := by
    intro j hj
    have := List.all_eq_true.mp hnone j hj
    simpa using this
  have htw : (chain e).takeWhile (fun j => !assignableTo j.dyn.typeOf slot) = chain e := by
    rw [List.takeWhile_eq_self_iff]
    intro j hj
    simp [hnone2 j hj]
  have hA : As (some e) (some (.ptr t addr slot))
      = Except.ok ((as e slot).1, some (Val.ptr t addr (as e slot).2)) := by
    show (if (slot.kind != Kind.Interface && !implementsError slot.typeOf) = true then
        (Except.error "errors: *target must be interface or implement error" :
          Except String (Bool × GoAny))
      else Except.ok ((as e slot).1, some (Val.ptr t addr (as e slot).2))) = _
    rw [hv]
    rfl
  cases hr : asRejects (chain e) slot
  · have hr2 := hr
    have htyped2 := htyped
    rw [← htw] at hr2 htyped2
    have has : as e slot = (true, asLeaves
        ((chain e).takeWhile (fun j => !assignableTo j.dyn.typeOf slot)) slot) := by
      rw [as_eq_asList]
      exact asList_accepted slot (chain e) slot (sameSlotType_self slot) hr2 htyped2
    have hE : AsError (some e) (some (.ptr t addr slot))
        = ⟨[Call.Helper], none, some (.ptr t addr (asLeaves
            ((chain e).takeWhile (fun j => !assignableTo j.dyn.typeOf slot)) slot))⟩ := by
      unfold AsError
      rw [hA, has]
    rw [hE]
    exact ⟨rfl, rfl, fun hc => Bool.noConfusion hc, fun _ => ⟨rfl, rfl⟩⟩
  · obtain ⟨s2, hs2, has2⟩ :=
      asList_none slot (chain e) slot (sameSlotType_self slot) hnone2 hr htyped
    have has : as e slot = (false, s2) := by
      rw [as_eq_asList]
      exact has2
    have hE : AsError (some e) (some (.ptr t addr slot))
        = ⟨[Call.Helper,
            Call.Errorf "assert.AsError failed\nwant: %v\n got: %T"
              [Arg.typ slot.typeOf, Arg.err (some e)]], none, some (.ptr t addr s2)⟩ := by
      unfold AsError
      rw [hA, has]
      show (match some s2.typeOf with
        | none => (⟨[Call.Helper], some "reflect: call of reflect.Value.Type on zero Value",
            some (.ptr t addr s2)⟩ : AsOutcome)
        | some typ =>
          ⟨[Call.Helper,
            Call.Errorf "assert.AsError failed\nwant: %v\n got: %T"
              [Arg.typ typ, Arg.err (some e)]],
            none, some (.ptr t addr s2)⟩) = _
      rw [sameSlotType_typeOf slot s2 hs2]
    rw [hE]
    refine ⟨rfl, rfl, fun _ => ⟨rfl, ?_, rfl⟩, fun hc => Bool.noConfusion hc⟩
    simp [Call.message, sprintf_AsError, fmtT]

/-- Witness of C13 as amended: `TestAsError_failWhenErrorsAreDifferent`, `io.EOF` searched
with the address of a nil `*os.PathError` variable, a target of type `**fs.PathError`; and
the error `sloppy{}`, whose `As` method writes to the target before it rejects it. -/
theorem AsError_failure_message_witness :
    tPathErrorPtrPtr.name = "**fs.PathError" ∧
      (AsError (some ioEOF) addrOfNilPathErrorPtr).calls.map Call.message
        = [none, some "assert.AsError failed\nwant: *fs.PathError\n got: *errors.errorString"] ∧
      (AsError (some sloppyError) addrOfNilPathErrorPtr).calls.map Call.message
        = [none, some "assert.AsError failed\nwant: *fs.PathError\n got: main.sloppy"] :=
  ⟨rfl,
    ((AsError_failure_message ioEOF tPathErrorPtrPtr 49152 (.nilPtr tPathErrorPtr)
      (Or.inr (by decide)) (by decide) (by decide)).2.2.1 (by decide)).2.1,
    ((AsError_failure_message sloppyError tPathErrorPtrPtr 49152 (.nilPtr tPathErrorPtr)
      (Or.inr (by decide)) (by decide) (by decide)).2.2.1 (by decide)).2.1⟩

/-- Counterexample to C13 as stated: no error of the wrap chain of `redirect{io.EOF}` is
assignable to a `*fs.PathError` variable, yet its `As` method accepts the target, and
`AsError` calls `t.Errorf` not at all. -/
theorem AsError_custom_As_accepts_unassignable :
    (chain redirectEOF).all
        (fun j => !assignableTo j.dyn.typeOf (.nilPtr tPathErrorPtr)) = true ∧
      countErrorf (AsError (some redirectEOF) addrOfNilPathErrorPtr).calls = 0 ∧
      (AsError (some redirectEOF) addrOfNilPathErrorPtr).panic = none := by
  decide

/-- The calls of `AsError`, whatever `errors.As` answers: `t.Helper`, followed by at most
one call of `t.Errorf`. -/
theorem AsError_calls (got : GoErr) (want : GoAny) :
    (AsError got want).calls = [Call.Helper] ∨
      ∃ typ, (AsError got want).calls =
        [Call.Helper,
          Call.Errorf "assert.AsError failed\nwant: %v\n got: %T" [Arg.typ typ, Arg.err got]] := by
  unfold AsError
  split
  · exact Or.inl rfl
  · exact Or.inl rfl
  · split
    · exact Or.inl rfl
    · exact Or.inr ⟨_, rfl⟩

/-- C14: in every call of `FailOnError`, `Nil`, `Equals`, `IsError` and `AsError`, for all
inputs, the first call made on the reporter is `t.Helper` and no other call of `t.Helper`
follows: no call of `t.Errorf` or `t.Fatalf` comes before it, and since it is made in every
outcome, the panics of `AsError` included, no abort comes before it either. -/
theorem Helper_first_and_once :
    (∀ err : GoErr, ∃ rest, FailOnError err = Call.Helper :: rest ∧ countHelper rest = 0) ∧
      (∀ v : GoAny, ∃ rest, Nil v = Call.Helper :: rest ∧ countHelper rest = 0) ∧
      (∀ got want : GoAny, ∃ rest,
        Equals got want = Call.Helper :: rest ∧ countHelper rest = 0) ∧
      (∀ got want : GoErr, ∃ rest,
        (IsError got want).calls = Call.Helper :: rest ∧ countHelper rest = 0) ∧
      (∀ (got : GoErr) (want : GoAny), ∃ rest,
        (AsError got want).calls = Call.Helper :: rest ∧ countHelper rest = 0) := by
  refine ⟨fun err => ?_, fun v => ?_, fun got want => ?_, fun got want => ?_,
    fun got want => ?_⟩
  · cases err
    · exact ⟨_, rfl, rfl⟩
    · exact ⟨_, rfl, rfl⟩
  · unfold Nil
    cases isNil v
    · exact ⟨_, rfl, rfl⟩
    · exact ⟨_, rfl, rfl⟩
  · unfold Equals
    cases DeepEqual got want
    · exact ⟨_, rfl, rfl⟩
    · exact ⟨_, rfl, rfl⟩
  · unfold IsError
    rcases Is got want with _ | b
    · exact ⟨_, rfl, rfl⟩
    · cases b
      · exact ⟨_, rfl, rfl⟩
      · exact ⟨_, rfl, rfl⟩
  · rcases AsError_calls got want with h | ⟨typ, h⟩
    · exact ⟨_, h, rfl⟩
    · exact ⟨_, h, rfl⟩

/-- C15: for all inputs, `Nil`, `Equals`, `IsError` and `AsError` never call `t.Fatalf`, and
`FailOnError` never calls `t.Errorf`. -/
theorem Fatalf_only_in_FailOnError :
    (∀ v : GoAny, countFatalf (Nil v) = 0) ∧
      (∀ got want : GoAny, countFatalf (Equals got want) = 0) ∧
      (∀ got want : GoErr, countFatalf (IsError got want).calls = 0) ∧
      (∀ (got : GoErr) (want : GoAny), countFatalf (AsError got want).calls = 0) ∧
      (∀ err : GoErr, countErrorf (FailOnError err) = 0) := by
  refine ⟨fun v => ?_, fun got want => ?_, fun got want => ?_, fun got want => ?_,
    fun err => ?_⟩
  · unfold Nil
    cases isNil v <;> rfl
  · unfold Equals
    cases DeepEqual got want <;> rfl
  · unfold IsError
    rcases Is got want with _ | b
    · rfl
    · cases b <;> rfl
  · rcases AsError_calls got want with h | ⟨typ, h⟩
    · rw [h]
      rfl
    · rw [h]
      rfl
  · cases err <;> rfl

/-- C16, on the failing input: with the nil error as `got` and a nil `*os.PathError` as
`want`, `errors.As` returns false without looking at the target, `AsError` reaches its
failure-reporting branch with a `want` that points to nothing, and taking the type after
`reflect.Indirect` panics; no failure is reported. -/
theorem AsError_nil_error_nil_pointer_panics :
    As none nilPathErrorPtr = .ok (false, nilPathErrorPtr) ∧
      isNonNilPointer nilPathErrorPtr = false ∧
      indirectType nilPathErrorPtr = none ∧
      (AsError none nilPathErrorPtr).panic
        = some "reflect: call of reflect.Value.Type on zero Value" ∧
      countErrorf (AsError none nilPathErrorPtr).calls = 0 :=
  ⟨rfl, rfl, rfl, rfl, rfl⟩

/-- The function `isNil` answers true on every semantic nil. -/
theorem isNil_of_semanticNil (v : GoAny) (h : semanticNil v = true) : isNil v = true := by
  rcases v with _ | v
  · rfl
  · cases v with
    | chan t r => cases r <;> first | rfl | simp [semanticNil] at h
    | func t r => cases r <;> first | rfl | simp [semanticNil] at h
    | _ => first | rfl | simp [semanticNil] at h

/-- The function `Nil` only calls `t.Helper` on a semantic nil. -/
theorem Nil_semanticNil_helper (v : GoAny) (h : semanticNil v = true) :
    Nil v = [Call.Helper] := by
  simp [Nil, isNil_of_semanticNil v h]

/-- C17: for every error `got`, `IsError(t, got, nil)` returns, and it records no failure
exactly when `got` is the nil error; for a non-nil `got` it calls `t.Errorf` exactly once.
In particular a non-nil error whose dynamic value is a semantic nil (a typed nil pointer),
which `Nil` accepts, is reported as a failure by `IsError(t, got, nil)`. -/
theorem IsError_nil_want (got : GoErr) :
    (IsError got none).panic = none ∧
      ((IsError got none).calls = [Call.Helper] ↔ got = none) ∧
      (countErrorf (IsError got none).calls = 0 ↔ got = none) ∧
      (got ≠ none → countErrorf (IsError got none).calls = 1 ∧
        countFatalf (IsError got none).calls = 0) ∧
      (got ≠ none → semanticNil got.toAny = true →
        Nil got.toAny = [Call.Helper] ∧ countErrorf (IsError got none).calls = 1) := by
  rcases got with _ | e
  · refine ⟨rfl, ⟨fun _ => rfl, fun _ => rfl⟩, ⟨fun _ => rfl, fun _ => rfl⟩,
      fun h => absurd rfl h, fun h => absurd rfl h⟩
  · have hE : IsError (some e) none =
        ⟨[Call.Helper,
          Call.Errorf "assert.IsError failed\nwant: %T(%v)\n got: %T(%v)"
            [Arg.err none, Arg.err none, Arg.err (some e), Arg.err (some e)]], none⟩ := rfl
    rw [hE]
    refine ⟨rfl, ⟨fun h => ?_, fun h => ?_⟩, ⟨fun h => ?_, fun h => ?_⟩,
      fun _ => ⟨rfl, rfl⟩, fun _ hs => ⟨?_, rfl⟩⟩
    · simp at h
    · simp at h
    · simp [countErrorf, Call.isErrorf] at h
    · simp at h
    · exact Nil_semanticNil_helper (GoErr.toAny (some e)) hs

/-- Witness of C17: the non-nil error `(*myErr)(nil)` is accepted by `Nil` and reported by
`IsError(t, got, nil)`. -/
theorem IsError_nil_want_witness :
    (some nilMyErr : GoErr) ≠ none ∧ semanticNil (GoErr.toAny (some nilMyErr)) = true ∧
      (Nil (GoErr.toAny (some nilMyErr)) = [Call.Helper] ∧
        countErrorf (IsError (some nilMyErr) none).calls = 1) :=
  ⟨by simp, by decide, (IsError_nil_want (some nilMyErr)).2.2.2.2 (by simp) (by decide)⟩

/-- A search of `errors.as` along a list that fails leaves the variable as it is, when every
`As` method writes to the target only when it accepts it. -/
theorem asList_failed_keeps (xs : List ErrInfo)
    (hAs : ∀ j ∈ xs, ∀ f, j.asM = some f → ∀ s, (f s).2 = false → (f s).1 = s) :
    ∀ slot : Val, (asList xs slot).1 = false → (asList xs slot).2 = slot := by
  induction xs with
  | nil => intro slot _; rfl
  | cons j rest ih =>
    intro slot
    show (match asHere j slot with
      | (true, s) => (true, s)
      | (false, s) => asList rest s).1 = false →
      (match asHere j slot with
      | (true, s) => (true, s)
      | (false, s) => asList rest s).2 = slot
    have hrest := ih (fun k hk => hAs k (List.mem_cons_of_mem j hk))
    cases ha : assignableTo j.dyn.typeOf slot
    · rcases hm : j.asM with _ | f
      · have hh : asHere j slot = (false, slot) := by
          unfold asHere
          rw [ha, hm]
          rfl
        rw [hh]
        exact hrest slot
      · have hh : asHere j slot = ((f slot).2, (f slot).1) := by
          unfold asHere
          rw [ha, hm]
          rfl
        rw [hh]
        cases hb : (f slot).2
        · have hk := hAs j (List.mem_cons_self j rest) f hm slot hb
          rw [hk]
          exact hrest slot
        · intro h
          cases h
    · have hh : asHere j slot = (true, store slot j.dyn) := by
        unfold asHere
        rw [ha]
        rfl
      rw [hh]
      intro h
      cases h

/-- C18, as amended: whenever `AsError(t, got, want)` reports a failure, and every custom
`As` method in the wrap chain of `got` writes to the target only when it accepts it, the
argument `want`, and with it the value stored in `*want`, is after the call what it was
before: `errors.As` itself writes to the target only when the search succeeds. -/
theorem AsError_failure_keeps_target (got : GoErr) (want : GoAny)
    (hAs : rejectingAsKeeps got) (hf : countErrorf (AsError got want).calls ≠ 0) :
    (AsError got want).want = want := by
  rcases got with _ | e
  · rcases want with _ | v
    · rfl
    · cases v <;> rfl
  · rcases want with _ | v
    · rfl
    · cases v with
      | ptr t addr slot =>
        have hA : As (some e) (some (.ptr t addr slot)) =
            (if (slot.kind != Kind.Interface && !implementsError slot.typeOf) = true then
              (Except.error "errors: *target must be interface or implement error" :
                Except String (Bool × GoAny))
            else Except.ok ((as e slot).1, some (Val.ptr t addr (as e slot).2))) := rfl
        cases hv : (slot.kind != Kind.Interface && !implementsError slot.typeOf)
        · have hA2 : As (some e) (some (.ptr t addr slot))
              = Except.ok ((as e slot).1, some (Val.ptr t addr (as e slot).2)) := by
            rw [hA, hv]
            rfl
          cases hb : (as e slot).1
          · have hk : (as e slot).2 = slot := by
              have := asList_failed_keeps (chain e) hAs slot
              rw [← as_eq_asList] at this
              exact this hb
            rw [hb, hk] at hA2
            unfold AsError
            rw [hA2]
            cases indirectType (some (Val.ptr t addr slot)) <;> rfl
          · rw [hb] at hA2
            have hE : AsError (some e) (some (.ptr t addr slot))
                = ⟨[Call.Helper], none, some (.ptr t addr (as e slot).2)⟩ := by
              unfold AsError
              rw [hA2]
            rw [hE] at hf
            exact absurd rfl hf
        · have hA2 : As (some e) (some (.ptr t addr slot))
              = Except.error "errors: *target must be interface or implement error" := by
            rw [hA, hv]
            rfl
          unfold AsError
          rw [hA2]
      | _ => rfl

/-- Witness of C18 as amended: `TestAsError_failWhenErrorsAreDifferent`; after the failure the
variable `target` is still the nil `*os.PathError`. -/
theorem AsError_failure_keeps_target_witness :
    countErrorf (AsError (some ioEOF) addrOfNilPathErrorPtr).calls ≠ 0 ∧
      (AsError (some ioEOF) addrOfNilPathErrorPtr).want = addrOfNilPathErrorPtr :=
  ⟨by decide,
    AsError_failure_keeps_target (some ioEOF) addrOfNilPathErrorPtr
      (by
        intro j hj f hf
        have hc : chain ioEOF = [ioEOF.info] := rfl
        rw [hc, List.mem_singleton] at hj
        rw [hj] at hf
        cases hf)
      (by decide)⟩

/-- Counterexample to C18 as stated: the `As` method of `sloppy{}` stores a `*fs.PathError`
in the target and then returns false; `AsError` reports the failure, and the variable
`target`, nil before the call, holds that `*fs.PathError` after it. -/
theorem AsError_failure_after_write :
    countErrorf (AsError (some sloppyError) addrOfNilPathErrorPtr).calls = 1 ∧
      (AsError (some sloppyError) addrOfNilPathErrorPtr).want
        = some (.ptr tPathErrorPtrPtr 49152 (pathErrorAt 16384 "stat")) ∧
      (AsError (some sloppyError) addrOfNilPathErrorPtr).want ≠ addrOfNilPathErrorPtr := by
  refine ⟨by decide, rfl, ?_⟩
  rw [show (AsError (some sloppyError) addrOfNilPathErrorPtr).want
      = some (.ptr tPathErrorPtrPtr 49152 (pathErrorAt 16384 "stat")) from rfl]
  simp [addrOfNilPathErrorPtr, pathErrorAt]

end Assert
